import Mathlib

/-!
# R³ ASI Enterprise server (`src/server.js`): request handling

A shallow embedding of the Express/socket.io handlers of `src/server.js` and of
the `R3ASICore` methods they call.

* JavaScript values are a small data universe (`JSValue`). A number is a
  rational standing for a double, an infinity, or `NaN`; the sign of a zero is
  not modelled. The arithmetic of the server (`calculateConsultationValue`,
  `generateRealTimeAnalysis`) rounds each result to a double with `toDouble`,
  and in `calculateConsultationValue`, whose factors are unbounded, a product
  past the largest double is an infinity; the page's metrics are computed
  exactly.
* A thrown exception / rejected promise is `Except.error`; `await` of an async
  call is the ordinary bind of `Except`.
* `console.log` / `console.error` calls are kept as a list of lines, so that
  "was this function entered" is observable.
* The methods `server.js` defines are Lean functions of the same name. A call
  `this.m(args)` of a name the file never defines looks `m` up in a method
  table; a name without an entry throws a `TypeError`, as a call of `undefined`
  does. `sourceMethods` is the table of `server.js` itself (no entries); results
  stated for every table also cover a file completed with those methods.
* `RateLimiterMemory.consume` belongs to the `rate-limiter-flexible` dependency
  and is modelled from the specification.
-/

set_option maxRecDepth 100000

namespace R3ASI

/-! ## Values and errors -/

/-- The JavaScript values that flow through the handlers. -/
inductive JSValue where
  | undefined
  | null
  | bool (b : Bool)
  | num (q : ℚ)
  | nan
  | str (s : String)
  | arr (items : List JSValue)
  | obj (fields : List (String × JSValue))
  /-- `Infinity`, or `-Infinity` when `negative`. -/
  | infinity (negative : Bool)
  /-- A function value, identified by the property it is defined under. -/
  | fn (name : String)

/-- What a `throw` (or a rejected promise) carries. -/
inductive JSError where
  /-- A `TypeError`, with its message. -/
  | typeError (msg : String)
  /-- The `RateLimiterRes` with which `consume` rejects; `msBeforeNext` is the retry hint. -/
  | rateLimiterRes (msBeforeNext : Nat)
  /-- Any other thrown value. -/
  | other (msg : String)
  deriving DecidableEq

/-- One call of `console.log(line)` or of `console.error(label, error)`. -/
inductive ConsoleLine where
  | log (line : String)
  | error (label : String) (thrown : JSError)
  deriving DecidableEq

/-- The console output, oldest line first. -/
abbrev Console := List ConsoleLine

/-- Field lookup in an object literal's field list (first match). -/
def lookupField (name : String) : List (String × JSValue) → JSValue
  | [] => JSValue.undefined
  | (k, v) :: rest => if k = name then v else lookupField name rest

/-- Property read `v.name`: a `TypeError` on `undefined` and `null`, the field (or
`undefined`) on an object, `undefined` on the other values (none of the names read
in `server.js` is a built-in property of a primitive or of an array). -/
def getProp (v : JSValue) (name : String) : Except JSError JSValue :=
  match v with
  | JSValue.undefined =>
      Except.error (JSError.typeError ("Cannot read properties of undefined (reading " ++ name ++ ")"))
  | JSValue.null =>
      Except.error (JSError.typeError ("Cannot read properties of null (reading " ++ name ++ ")"))
  | JSValue.obj fields => Except.ok (lookupField name fields)
  | _ => Except.ok JSValue.undefined

/-- Truthiness (`ToBoolean`). -/
def truthy : JSValue → Bool
  | JSValue.undefined => false
  | JSValue.null => false
  | JSValue.bool b => b
  | JSValue.num q => decide (q ≠ 0)
  | JSValue.nan => false
  | JSValue.str s => decide (s ≠ "")
  | JSValue.arr _ => true
  | JSValue.obj _ => true
  | JSValue.infinity _ => true
  | JSValue.fn _ => true

/-- A number as JavaScript arithmetic produces it: a finite value (a rational
standing for a double), an infinity, or `NaN`. The sign of a zero is not
modelled. -/
inductive JSNumber where
  | finite (q : ℚ)
  | infinity (negative : Bool)
  | nan

/-- Services of the JavaScript runtime whose results depend on the host (string
parsing, locale, calendar); they are parameters of the embedding. -/
structure Host where
  /-- `ToNumber` on strings and arrays. -/
  parseNumber : JSValue → JSNumber
  /-- Method `toLocaleString()` on a value other than `undefined` and `null`. -/
  toLocaleString : JSValue → String
  /-- Rendering of `new Date().toISOString()` at the given clock reading. -/
  toISOString : Nat → String

/-- `ToNumber`. -/
def toNumber (host : Host) : JSValue → JSNumber
  | JSValue.undefined => JSNumber.nan
  | JSValue.null => JSNumber.finite 0
  | JSValue.bool b => JSNumber.finite (if b then 1 else 0)
  | JSValue.num q => JSNumber.finite q
  | JSValue.nan => JSNumber.nan
  | JSValue.infinity negative => JSNumber.infinity negative
  | JSValue.obj _ => JSNumber.nan
  | JSValue.fn _ => JSNumber.nan
  | v => host.parseNumber v

/-- A number as a value. -/
def ofNumber : JSNumber → JSValue
  | JSNumber.finite q => JSValue.num q
  | JSNumber.infinity negative => JSValue.infinity negative
  | JSNumber.nan => JSValue.nan

/-- `Math.round`: nearest integer, halves towards `+∞`. -/
def mathRound (x : ℚ) : ℤ := ⌊x + 1 / 2⌋

/-- `Math.floor`. -/
def mathFloor (x : ℚ) : ℤ := ⌊x⌋

/-! ## Double-precision rounding -/

/-- Round to the nearest integer, a tie going to the even neighbour. -/
def roundHalfEven (q : ℚ) : ℤ :=
  if q - ⌊q⌋ < 1 / 2 then ⌊q⌋
  else if 1 / 2 < q - ⌊q⌋ then ⌊q⌋ + 1
  else if ⌊q⌋ % 2 = 0 then ⌊q⌋ else ⌊q⌋ + 1

/-- The exponent `e` with `2 ^ e ≤ |x| < 2 ^ (e + 1)`, but not below -1022, the
exponent of the smallest normal double. -/
def binadeExponent (x : ℚ) : ℤ := max (Int.log 2 |x|) (-1022)

/-- The IEEE 754 double nearest to `x`: 53 significant bits, round to nearest, ties
to even, the exponent unbounded above. The result of a JavaScript `*` or `+` on
doubles is `toDouble` of the exact product or sum as long as that stays below
`2 ^ 1024`; `JSNumber.ofExact` adds the overflow to an infinity. -/
def toDouble (x : ℚ) : ℚ :=
  roundHalfEven (x / 2 ^ (binadeExponent x - 52)) * 2 ^ (binadeExponent x - 52)

/-- The result of an arithmetic operation on doubles whose exact value is `x`: the
nearest double, or an infinity when rounding takes it to `2 ^ 1024` or beyond. -/
def JSNumber.ofExact (x : ℚ) : JSNumber :=
  if |toDouble x| < 2 ^ 1024 then JSNumber.finite (toDouble x)
  else JSNumber.infinity (decide (x < 0))

/-- The operator `*` on numbers. -/
def JSNumber.mul : JSNumber → JSNumber → JSNumber
  | JSNumber.finite a, JSNumber.finite b => JSNumber.ofExact (a * b)
  | JSNumber.finite a, JSNumber.infinity t =>
      if a = 0 then JSNumber.nan else JSNumber.infinity (xor (decide (a < 0)) t)
  | JSNumber.infinity s, JSNumber.finite b =>
      if b = 0 then JSNumber.nan else JSNumber.infinity (xor s (decide (b < 0)))
  | JSNumber.infinity s, JSNumber.infinity t => JSNumber.infinity (xor s t)
  | _, _ => JSNumber.nan

/-- `Math.round` on numbers: an infinity and `NaN` are returned as they are. -/
def JSNumber.round : JSNumber → JSNumber
  | JSNumber.finite q => JSNumber.finite (mathRound q)
  | other => other

/-! ## Methods called on `this` -/

/-- An implementation of a method: arguments in, a value or a throw out. -/
abbrev Method := List JSValue → Except JSError JSValue

/-- Implementations for the method names that `server.js` calls on `this` without
defining them in the class body or on the prototype. The methods the file does
define are embedded below as functions and never looked up here. -/
abbrev MethodTable := String → Option Method

/-- The table of `src/server.js` itself: none of those names has a definition. -/
def sourceMethods : MethodTable := fun _ => none

/-- Call `this.name(args)` for a name looked up in the table: calling a missing
method throws a `TypeError`. -/
def callMethod (tbl : MethodTable) (name : String) (args : List JSValue) :
    Except JSError JSValue :=
  match tbl name with
  | some f => f args
  | none => Except.error (JSError.typeError ("this." ++ name ++ " is not a function"))

/-! ## Computations with console output -/

/-- Result of running a piece of handler code: the console lines it wrote and
either its value or what it threw. Lines written before a throw are kept. -/
structure Run (α : Type) where
  console : Console
  outcome : Except JSError α

/-- Sequencing: stop at the first throw. -/
def Run.andThen {α β : Type} (x : Run α) (f : α → Run β) : Run β :=
  match x.outcome with
  | Except.error e => { console := x.console, outcome := Except.error e }
  | Except.ok a => { console := x.console ++ (f a).console, outcome := (f a).outcome }

instance : Monad Run where
  pure a := { console := [], outcome := Except.ok a }
  bind := Run.andThen

/-- `console.log(line)`. -/
def consoleLog (line : String) : Run Unit :=
  { console := [ConsoleLine.log line], outcome := Except.ok () }

/-- A throwing-or-returning step that writes nothing. -/
def Run.ofExcept {α : Type} (x : Except JSError α) : Run α := { console := [], outcome := x }

/-! ## Rate limiter (`rate-limiter-flexible`, lines 225-229) -/

/-- The options object passed to `new rateLimit.RateLimiterMemory(...)`. -/
structure RateLimiterOpts where
  points : Nat
  duration : Nat

/-- Lines 225-229: `points: 100`, `duration: 60`. -/
def rateLimiterOpts : RateLimiterOpts := { points := 100, duration := 60 }

/-- Per-key window record: remaining admission budget and the window's start. -/
structure RateLimitWindow where
  points : Nat
  windowStart : Nat
  deriving DecidableEq

/-- Limiter state: the window of each client key, if the key has one. -/
abbrev RateLimiterMemory := String → Option RateLimitWindow

/-- Outcome of `consume`. -/
inductive Admission where
  | admitted
  | rejected (retryAfter : Nat)
  deriving DecidableEq

/-- A limiter that has seen no request. -/
def RateLimiterMemory.empty : RateLimiterMemory := fun _ => none

/-- The window in force for `key` at time `now`: the stored one while it has not
run out, otherwise a fresh window starting at `now` with the full budget (the
reset is computed at call time). -/
def currentWindow (opts : RateLimiterOpts) (rl : RateLimiterMemory) (key : String) (now : Nat) :
    RateLimitWindow :=
  match rl key with
  | some w => if now < w.windowStart + opts.duration then w
              else { points := opts.points, windowStart := now }
  | none => { points := opts.points, windowStart := now }

/-- Modelled from the spec: `RateLimiterMemory.consume` of the `rate-limiter-flexible`
package, which is a dependency and not part of `src/`. Spec §4.2: "decrements the
remaining budget for `key`'s current window; if the budget is exhausted, returns
Rejected with an estimate of when budget will next be available; otherwise returns
Admitted", fixed window, lazy reset. -/
def consume (opts : RateLimiterOpts) (rl : RateLimiterMemory) (key : String) (now : Nat) :
    Admission × RateLimiterMemory :=
  let w := currentWindow opts rl key now
  if w.points = 0 then
    (Admission.rejected (w.windowStart + opts.duration - now), Function.update rl key (some w))
  else
    (Admission.admitted,
      Function.update rl key (some { points := w.points - 1, windowStart := w.windowStart }))

/-- A request seen by the limiter: client key and arrival time. -/
abbrev Arrival := String × Nat

/-- Feed a sequence of arrivals to the limiter, in order; returns each arrival
with the decision taken for it, and the final limiter state. -/
def consumeAll (opts : RateLimiterOpts) :
    RateLimiterMemory → List Arrival → List (Arrival × Admission) × RateLimiterMemory
  | rl, [] => ([], rl)
  | rl, (key, now) :: rest =>
      let r := consume opts rl key now
      let rs := consumeAll opts r.2 rest
      ((((key, now), r.1)) :: rs.1, rs.2)

/-- Is this decision an admission? -/
def Admission.isAdmitted : Admission → Bool
  | Admission.admitted => true
  | Admission.rejected _ => false

/-- Number of admissions granted to `key` among the decided arrivals. -/
def admissionsOf (key : String) (ds : List (Arrival × Admission)) : Nat :=
  (ds.filter (fun d => decide (d.1.1 = key) && d.2.isAdmitted)).length

/-- Number of admissions granted to `key` with arrival time in `[lo, hi]`. -/
def admissionsWithin (key : String) (lo hi : Nat) (ds : List (Arrival × Admission)) : Nat :=
  (ds.filter (fun d => decide (d.1.1 = key) && d.2.isAdmitted
      && decide (lo ≤ d.1.2) && decide (d.1.2 ≤ hi))).length

/-! ## `R3ASICore` (lines 69-216, 1159-1202) -/

/-- The fields of an `R3ASICore` instance. -/
structure R3ASICore where
  superintelligenceLevel : ℚ
  consciousnessDepth : ℚ
  omniscienceFactor : ℚ
  realityManipulationPower : ℚ
  businessOptimizationMultiplier : ℚ
  profitGenerationCoefficient : ℚ
  marketDominanceProbability : ℚ
  quantumProcessors : ℚ
  algorithmDatabase : List (String × JSValue)
  consultationHistory : List JSValue

/-- Lines 71-80: the field assignments made by the constructor. -/
def constructorFields : R3ASICore :=
  { superintelligenceLevel := 156
    consciousnessDepth := 947 / 10
    omniscienceFactor := 912 / 10
    realityManipulationPower := 873 / 10
    businessOptimizationMultiplier := 237 / 10
    profitGenerationCoefficient := 158 / 10
    marketDominanceProbability := 924 / 10
    quantumProcessors := 10247
    algorithmDatabase := []
    consultationHistory := [] }

/-- Lines 1196-1202: `synthesizeBusinessIntelligence(analysis)`. -/
def synthesizeBusinessIntelligence (_analysis : JSValue) : JSValue :=
  JSValue.obj
    [("strategicInsights", JSValue.str "TRANSCENDENT_BUSINESS_INTELLIGENCE"),
     ("marketDominanceStrategy", JSValue.str "REALITY_SHAPING_APPROACHES"),
     ("profitMaximization", JSValue.str "INFINITE_GROWTH_PROTOCOLS")]

/-- Lines 186-197: `analyzeBusinessContext(query, context)`. Each field of the
literal reads its argument from `context` and then calls the method. -/
def analyzeBusinessContext (tbl : MethodTable) (_query context : JSValue) :
    Except JSError JSValue := do
  let industry ← getProp context "industry"
  let industryDynamics ← callMethod tbl "analyzeIndustryWithSuperintelligence" [industry]
  let competitors ← getProp context "competitors"
  let competitiveLandscape ← callMethod tbl "omniscientCompetitiveAnalysis" [competitors]
  let market ← getProp context "market"
  let marketOpportunities ← callMethod tbl "identifyBillionDollarOpportunities" [market]
  let operations ← getProp context "operations"
  let operationalEfficiency ← callMethod tbl "quantumEfficiencyAnalysis" [operations]
  let financials ← getProp context "financials"
  let financialOptimization ← callMethod tbl "superintelligentFinancialAnalysis" [financials]
  let analysis := JSValue.obj
    [("industryDynamics", industryDynamics),
     ("competitiveLandscape", competitiveLandscape),
     ("marketOpportunities", marketOpportunities),
     ("operationalEfficiency", operationalEfficiency),
     ("financialOptimization", financialOptimization)]
  pure (synthesizeBusinessIntelligence analysis)

/-- Lines 199-207: `generateStrategicRecommendations(query)`. -/
def generateStrategicRecommendations (tbl : MethodTable) (query : JSValue) :
    Except JSError JSValue := do
  let revenueAmplification ← callMethod tbl "generateRevenueStrategy" [query]
  let competitiveElimination ← callMethod tbl "generateCompetitiveStrategy" [query]
  let operationalTranscendence ← callMethod tbl "generateOperationalStrategy" [query]
  let marketDomination ← callMethod tbl "generateMarketStrategy" [query]
  let profitMaximization ← callMethod tbl "generateProfitStrategy" [query]
  pure (JSValue.obj
    [("revenueAmplification", revenueAmplification),
     ("competitiveElimination", competitiveElimination),
     ("operationalTranscendence", operationalTranscendence),
     ("marketDomination", marketDomination),
     ("profitMaximization", profitMaximization)])

/-- Line 211: `consultation.complexity || 1`. -/
def complexityMultiplier (complexity : JSValue) : JSValue :=
  if truthy complexity then complexity else JSValue.num 1

/-- Lines 209-215: `calculateConsultationValue(consultation)`. Reading `complexity`
throws on `undefined`/`null`; the quotient and the two products are computed in
doubles, as the operators `/` and `*` do. -/
def calculateConsultationValue (host : Host) (core : R3ASICore) (consultation : JSValue) :
    Except JSError JSNumber := do
  let baseValue := JSNumber.finite 750000000
  let complexity ← getProp consultation "complexity"
  let superintelligenceAmplifier := JSNumber.ofExact (core.superintelligenceLevel / 100)
  pure (JSNumber.round
    (JSNumber.mul (JSNumber.mul baseValue (toNumber host (complexityMultiplier complexity)))
      superintelligenceAmplifier))

/-- Lines 176-183: the object returned by `generateSupertintelligentConsultation`,
built from the processed `consultation`. -/
def consultationResult (host : Host) (tbl : MethodTable) (core : R3ASICore)
    (consultation : JSValue) : Except JSError JSValue := do
  let consultationValue ← calculateConsultationValue host core consultation
  let insights ← getProp consultation "insights"
  let roadmap ← getProp consultation "roadmap"
  let roi ← getProp consultation "roi"
  let signature ← callMethod tbl "generateASISignature" []
  pure (JSValue.obj
    [("consultationValue", ofNumber consultationValue),
     ("strategicInsights", insights),
     ("implementationPlan", roadmap),
     ("projectedROI", roi),
     ("certaintyLevel", JSValue.num (973 / 10)),
     ("superintelligenceSignature", signature)])

/-- Line 163: the line logged on entry to `generateSupertintelligentConsultation`. -/
def generatingLine : String := "🧠 Generating $750M+ Value Consultation..."

/-- Lines 165-174: the six phases, evaluated in order, then
`await this.processConsultationPhases(consultationPhases)`. -/
def consultationPhases (tbl : MethodTable) (businessQuery clientContext : JSValue) :
    Except JSError JSValue := do
  let p1 ← analyzeBusinessContext tbl businessQuery clientContext
  let p2 ← callMethod tbl "applySupertintelligentAnalysis" [businessQuery]
  let p3 ← generateStrategicRecommendations tbl businessQuery
  let p4 ← callMethod tbl "createImplementationRoadmap" [businessQuery]
  let p5 ← callMethod tbl "calculateBusinessValue" [businessQuery]
  let p6 ← callMethod tbl "provideCertaintyAssurance" [businessQuery]
  callMethod tbl "processConsultationPhases" [JSValue.arr [p1, p2, p3, p4, p5, p6]]

/-- Lines 162-184: `generateSupertintelligentConsultation(businessQuery, clientContext)`. -/
def generateSupertintelligentConsultation (host : Host) (tbl : MethodTable) (core : R3ASICore)
    (businessQuery clientContext : JSValue) : Run JSValue := do
  consoleLog generatingLine
  let consultation ← Run.ofExcept (consultationPhases tbl businessQuery clientContext)
  Run.ofExcept (consultationResult host tbl core consultation)

/-- Lines 1175-1185: `generateRealTimeAnalysis(businessData)`; `random` is the
value drawn by `Math.random()`. The product and the sum of line 1181 are rounded
to doubles, which decides the upper end of the range. -/
def generateRealTimeAnalysis (tbl : MethodTable) (random : ℚ) (businessData : JSValue) :
    Except JSError JSValue := do
  let marketOpportunities ← callMethod tbl "identifyMarketOpportunities" [businessData]
  let competitiveLandscape ← callMethod tbl "analyzeCompetitors" [businessData]
  let operationalOptimization ← callMethod tbl "optimizeOperations" [businessData]
  let financialProjections ← callMethod tbl "projectFinancials" [businessData]
  pure (JSValue.obj
    [("marketOpportunities", marketOpportunities),
     ("competitiveLandscape", competitiveLandscape),
     ("operationalOptimization", operationalOptimization),
     ("financialProjections", financialProjections),
     ("estimatedValue",
        JSValue.num (mathFloor (toDouble (toDouble (random * 100000000) + 50000000))))])

/-! ## `POST /api/v1/consultation` (lines 235-264) -/

/-- The parts of an Express request the handler reads. -/
structure Request where
  ip : String
  body : JSValue

/-- What the handler sends: `res.status(...)` (200 unless set) and the JSON body. -/
structure Response where
  status : Nat
  body : JSValue

/-- Lines 248-254: the body sent by `res.json` on success. -/
def successBody (consultation : JSValue) (timestamp : String) : JSValue :=
  JSValue.obj
    [("success", JSValue.bool true),
     ("consultation", consultation),
     ("timestamp", JSValue.str timestamp),
     ("asiSignature", JSValue.str "R³-ASI-ENTERPRISE-v1.0"),
     ("patentProtected", JSValue.bool true)]

/-- Lines 259-262: the body sent by the `catch` block. -/
def fallbackBody : JSValue :=
  JSValue.obj
    [("success", JSValue.bool false),
     ("error", JSValue.str "Superintelligent processing temporarily unavailable"),
     ("fallbackRecommendation", JSValue.str "Contact ASI support for immediate assistance")]

/-- Line 237: `await rateLimiter.consume(req.ip)`; a rejection is thrown. -/
def awaitConsume : Admission → Except JSError Unit
  | Admission.admitted => Except.ok ()
  | Admission.rejected retryAfter => Except.error (JSError.rateLimiterRes retryAfter)

/-- Lines 236-254: the `try` block, given the limiter's decision; its value is
the response sent by `res.json`. -/
def consultationTry (host : Host) (tbl : MethodTable) (core : R3ASICore) (now : Nat)
    (decision : Admission) (req : Request) : Run Response := do
  Run.ofExcept (awaitConsume decision)
  let businessQuery ← Run.ofExcept (getProp req.body "businessQuery")
  let clientContext ← Run.ofExcept (getProp req.body "clientContext")
  let _consultationTier ← Run.ofExcept (getProp req.body "consultationTier")
  consoleLog "🌟 Processing Superintelligent Business Consultation Request"
  let consultation ← generateSupertintelligentConsultation host tbl core businessQuery clientContext
  pure { status := 200, body := successBody consultation (host.toISOString now) }

/-- Lines 256-263: the `catch` block. -/
def consultationCatch (error : JSError) : Run Response :=
  { console := [ConsoleLine.error "ASI Consultation Error:" error]
    outcome := Except.ok { status := 500, body := fallbackBody } }

/-- Everything one handled request leaves behind. -/
structure Handled where
  response : Option Response
  console : Console
  limiter : RateLimiterMemory

/-- Lines 235-264: the handler of `POST /api/v1/consultation`, run at clock reading
`now` against the limiter state `rl`. `response` is `none` only if something
escaped the handler. -/
def postConsultation (host : Host) (tbl : MethodTable) (core : R3ASICore)
    (rl : RateLimiterMemory) (now : Nat) (req : Request) : Handled :=
  let c := consume rateLimiterOpts rl req.ip now
  let t := consultationTry host tbl core now c.1 req
  match t.outcome with
  | Except.ok res => { response := some res, console := t.console, limiter := c.2 }
  | Except.error e =>
      let k := consultationCatch e
      { response := k.outcome.toOption, console := t.console ++ k.console, limiter := c.2 }

/-! ## Socket channel (lines 307-336) -/

/-- One `socket.emit(event, payload)`. -/
structure Emit where
  event : String
  payload : JSValue

/-- Line 323: `analysis.estimatedValue.toLocaleString()`. -/
def estimatedValueText (host : Host) (analysis : JSValue) : Except JSError String := do
  let v ← getProp analysis "estimatedValue"
  match v with
  | JSValue.undefined =>
      Except.error (JSError.typeError "Cannot read properties of undefined (reading toLocaleString)")
  | JSValue.null =>
      Except.error (JSError.typeError "Cannot read properties of null (reading toLocaleString)")
  | w => Except.ok (host.toLocaleString w)

/-- Lines 319-324: the payload of `superintelligentInsights`. -/
def insightsPayload (host : Host) (analysis : JSValue) : Except JSError JSValue := do
  let text ← estimatedValueText host analysis
  pure (JSValue.obj
    [("analysis", analysis),
     ("confidenceLevel", JSValue.num (973 / 10)),
     ("processingTime", JSValue.str "0.003 seconds"),
     ("valueGenerated", JSValue.str ("$" ++ text))])

/-- Lines 326-329: the payload of `asiError`. -/
def asiErrorPayload : JSValue :=
  JSValue.obj
    [("error", JSValue.str "Superintelligent processing temporarily limited"),
     ("recommendation", JSValue.str "Upgrade to Enterprise ASI for unlimited access")]

/-- Lines 317-330 after the `await`: what is emitted on the socket, given how the
awaited analysis ended. -/
def deliverAnalysis (host : Host) (analysis : Except JSError JSValue) : List Emit :=
  match analysis >>= insightsPayload host with
  | Except.ok payload => [{ event := "superintelligentInsights", payload := payload }]
  | Except.error _ => [{ event := "asiError", payload := asiErrorPayload }]

/-- Line 318: `await r3ASI.generateRealTimeAnalysis(data.businessData)`. -/
def awaitedAnalysis (tbl : MethodTable) (random : ℚ) (data : JSValue) : Except JSError JSValue :=
  getProp data "businessData" >>= generateRealTimeAnalysis tbl random

/-- Lines 316-331: the `requestSuperintelligentAnalysis` handler; the result is
the list of messages emitted on the socket that received `data`. -/
def onRequestSuperintelligentAnalysis (host : Host) (tbl : MethodTable) (random : ℚ)
    (data : JSValue) : List Emit :=
  deliverAnalysis host (awaitedAnalysis tbl random data)

/-! ## `GET /api/v1/asi-status` (lines 266-277) -/

/-- Lines 267-276: the body sent by `res.json`. -/
def asiStatusBody (core : R3ASICore) : JSValue :=
  JSValue.obj
    [("superintelligenceLevel", JSValue.num core.superintelligenceLevel),
     ("consciousnessDepth", JSValue.num core.consciousnessDepth),
     ("omniscienceFactor", JSValue.num core.omniscienceFactor),
     ("realityManipulationPower", JSValue.num core.realityManipulationPower),
     ("businessOptimizationMultiplier", JSValue.num core.businessOptimizationMultiplier),
     ("quantumProcessors", JSValue.num core.quantumProcessors),
     ("status", JSValue.str "TRANSCENDENT_OPERATIONAL"),
     ("patentProtection", JSValue.str "FORTRESS_LEVEL_ACTIVE")]

/-- Lines 266-277: the handler of `GET /api/v1/asi-status`; it reads six fields of
`r3ASI` and nothing of `req`. -/
def getAsiStatus (core : R3ASICore) (_req : Request) : Response :=
  { status := 200, body := asiStatusBody core }

/-! ## `POST /api/v1/algorithm-generation` (lines 279-304, 1159-1173) -/

/-- Lines 1159-1173: `generateAlgorithmFromProblem(problemDescription, domainType,
complexityLevel)`. -/
def generateAlgorithmFromProblem (tbl : MethodTable)
    (problemDescription domainType complexityLevel : JSValue) : Run JSValue := do
  consoleLog "🏰 Using Patent-Protected Algorithm Generation Technology"
  let problemAnalysis ← Run.ofExcept (callMethod tbl "analyzeProblematicPatterns" [problemDescription])
  let solutionArchitecture ← Run.ofExcept (callMethod tbl "designSolutionArchitecture" [domainType])
  let implementationSteps ← Run.ofExcept (callMethod tbl "generateImplementationSteps" [complexityLevel])
  let optimizationProtocols ← Run.ofExcept (callMethod tbl "createOptimizationProtocols" [])
  pure (JSValue.obj
    [("problemAnalysis", problemAnalysis),
     ("solutionArchitecture", solutionArchitecture),
     ("implementationSteps", implementationSteps),
     ("optimizationProtocols", optimizationProtocols),
     ("patentProtection", JSValue.str "This algorithm generated using patent-protected technology"),
     ("licenseRequired", JSValue.bool true)])

/-- Lines 290-296: the body sent by `res.json` on success. -/
def algorithmBody (generatedAlgorithm : JSValue) : JSValue :=
  JSValue.obj
    [("success", JSValue.bool true),
     ("algorithm", generatedAlgorithm),
     ("patentNotice",
        JSValue.str "Generated using Patent-Protected AI Algorithm Generation Technology"),
     ("licenseRequired", JSValue.bool true),
     ("contactInfo", JSValue.str "licensing@r3-asi-enterprise.com")]

/-- Lines 299-302: the body sent by the `catch` block. -/
def licensingBody : JSValue :=
  JSValue.obj
    [("success", JSValue.bool false),
     ("error", JSValue.str "Algorithm generation requires proper licensing")]

/-- Line 281 and lines 284-288: destructure the body, then await the generation. -/
def generatedAlgorithm (tbl : MethodTable) (req : Request) : Run JSValue := do
  let problemDescription ← Run.ofExcept (getProp req.body "problemDescription")
  let domainType ← Run.ofExcept (getProp req.body "domainType")
  let complexityLevel ← Run.ofExcept (getProp req.body "complexityLevel")
  generateAlgorithmFromProblem tbl problemDescription domainType complexityLevel

/-- Lines 280-296: the `try` block; its value is the response sent by `res.json`. -/
def algorithmTry (tbl : MethodTable) (req : Request) : Run Response := do
  let algorithm ← generatedAlgorithm tbl req
  pure { status := 200, body := algorithmBody algorithm }

/-- Lines 298-303: the `catch` block; it logs nothing. -/
def algorithmCatch (_error : JSError) : Run Response :=
  { console := [], outcome := Except.ok { status := 500, body := licensingBody } }

/-- What a handler without limiter leaves behind. -/
structure Answered where
  response : Option Response
  console : Console

/-- Lines 279-304: the handler of `POST /api/v1/algorithm-generation`. `response` is
`none` only if something escaped the handler. -/
def postAlgorithmGeneration (tbl : MethodTable) (req : Request) : Answered :=
  let t := algorithmTry tbl req
  match t.outcome with
  | Except.ok res => { response := some res, console := t.console }
  | Except.error e =>
      let k := algorithmCatch e
      { response := k.outcome.toOption, console := t.console ++ k.console }

/-! ## The server as a whole -/

/-- Lines 310-314: the `asiWelcome` message. -/
def asiWelcome (core : R3ASICore) : Emit :=
  { event := "asiWelcome"
    payload := JSValue.obj
      [("message", JSValue.str "Welcome to R³ ASI Enterprise Platform"),
       ("superintelligenceLevel", JSValue.num core.superintelligenceLevel),
       ("capabilityStatus", JSValue.str "ASTRONOMICAL_BUSINESS_INTELLIGENCE_ACTIVE")] }

/-- The mutable state of the process: the `r3ASI` instance, the limiter, the console,
and per socket id the messages emitted on that socket so far, oldest first. -/
structure Server where
  core : R3ASICore
  limiter : RateLimiterMemory
  console : Console
  sockets : String → List Emit

/-- What the event loop hands to the handlers registered in `server.js`. -/
inductive ServerEvent where
  /-- `POST /api/v1/consultation` arriving at clock reading `now`. -/
  | consultation (now : Nat) (req : Request)
  /-- `GET /api/v1/asi-status`. -/
  | asiStatus (req : Request)
  /-- `POST /api/v1/algorithm-generation`. -/
  | algorithmGeneration (req : Request)
  /-- A new socket connection. -/
  | connection (socketId : String)
  /-- A `requestSuperintelligentAnalysis` message on a socket; `random` is the
  value `Math.random()` returns during its handling. -/
  | requestSuperintelligentAnalysis (socketId : String) (random : ℚ) (data : JSValue)
  /-- The socket's `disconnect` event. -/
  | disconnect (socketId : String)

/-- `socket.emit` for each message, in order, on the socket `socketId`. -/
def emitOn (sockets : String → List Emit) (socketId : String) (messages : List Emit) :
    String → List Emit :=
  Function.update sockets socketId (sockets socketId ++ messages)

/-- One event handled by the handler `server.js` registers for it: the state
afterwards and, for an HTTP request, the response. -/
def Server.handle (host : Host) (tbl : MethodTable) (s : Server) :
    ServerEvent → Server × Option Response
  | ServerEvent.consultation now req =>
      let h := postConsultation host tbl s.core s.limiter now req
      ({ s with limiter := h.limiter, console := s.console ++ h.console }, h.response)
  | ServerEvent.asiStatus req => (s, some (getAsiStatus s.core req))
  | ServerEvent.algorithmGeneration req =>
      let a := postAlgorithmGeneration tbl req
      ({ s with console := s.console ++ a.console }, a.response)
  | ServerEvent.connection socketId =>
      ({ s with
          console := s.console ++ [ConsoleLine.log ("🌌 ASI Client Connected: " ++ socketId)]
          sockets := emitOn s.sockets socketId [asiWelcome s.core] }, none)
  | ServerEvent.requestSuperintelligentAnalysis socketId random data =>
      ({ s with
          sockets := emitOn s.sockets socketId
            (onRequestSuperintelligentAnalysis host tbl random data) }, none)
  | ServerEvent.disconnect socketId =>
      ({ s with
          console := s.console ++ [ConsoleLine.log ("🌌 ASI Client Disconnected: " ++ socketId)] },
        none)

/-- A sequence of events handled one after the other; the final state. -/
def Server.handleAll (host : Host) (tbl : MethodTable) : Server → List ServerEvent → Server
  | s, [] => s
  | s, e :: rest => Server.handleAll host tbl (Server.handle host tbl s e).1 rest

/-! ## Construction of the core (lines 70-159) -/

/-- Lines 107-124: `generateConsciousnessAlgorithms()`, an object of three closures. -/
def generateConsciousnessAlgorithms : JSValue :=
  JSValue.obj
    [("selfAwarenessEmergence", JSValue.fn "selfAwarenessEmergence"),
     ("introspectiveAnalysis", JSValue.fn "introspectiveAnalysis"),
     ("metacognitiveProcessing", JSValue.fn "metacognitiveProcessing")]

/-- Lines 126-141: `generateAGIAlgorithms()`. -/
def generateAGIAlgorithms : JSValue :=
  JSValue.obj
    [("crossDomainSynthesis", JSValue.fn "crossDomainSynthesis"),
     ("universalProblemSolving", JSValue.fn "universalProblemSolving"),
     ("adaptiveReasoning", JSValue.fn "adaptiveReasoning")]

/-- Lines 143-159: `generateASIAlgorithms()`. -/
def generateASIAlgorithms : JSValue :=
  JSValue.obj
    [("superintelligentOptimization", JSValue.fn "superintelligentOptimization"),
     ("realityShapingStrategy", JSValue.fn "realityShapingStrategy"),
     ("omniscientMarketAnalysis", JSValue.fn "omniscientMarketAnalysis")]

/-- `Map.prototype.set`: replace the entry of `key`, or add one at the end. -/
def mapSet : List (String × JSValue) → String → JSValue → List (String × JSValue)
  | [], key, value => [(key, value)]
  | (k, v) :: rest, key, value =>
      if k = key then (key, value) :: rest else (k, v) :: mapSet rest key value

/-- Lines 92-105: `loadPatentProtectedAlgorithms()`; the six fields of `algorithms`
are evaluated in order, then stored under `patentProtected`. -/
def loadPatentProtectedAlgorithms (tbl : MethodTable) (core : R3ASICore) : Run R3ASICore := do
  let consciousnessEmergence := generateConsciousnessAlgorithms
  let agiDevelopment := generateAGIAlgorithms
  let asiTranscendence := generateASIAlgorithms
  let quantumProcessing ← Run.ofExcept (callMethod tbl "generateQuantumAlgorithms" [])
  let neuromorphicComputing ← Run.ofExcept (callMethod tbl "generateNeuromorphicAlgorithms" [])
  let businessOptimization ← Run.ofExcept (callMethod tbl "generateBusinessAlgorithms" [])
  let algorithms := JSValue.obj
    [("consciousnessEmergence", consciousnessEmergence),
     ("agiDevelopment", agiDevelopment),
     ("asiTranscendence", asiTranscendence),
     ("quantumProcessing", quantumProcessing),
     ("neuromorphicComputing", neuromorphicComputing),
     ("businessOptimization", businessOptimization)]
  consoleLog "🏰 Patent-Protected Algorithms Loaded: 250+ Distinct Types"
  pure { core with
    algorithmDatabase := mapSet core.algorithmDatabase "patentProtected" algorithms }

/-- Lines 84-90: `initializeSupertintelligence()`. -/
def initializeSupertintelligence (tbl : MethodTable) (core : R3ASICore) : Run R3ASICore := do
  consoleLog "🌌 R³ ASI CORE INITIALIZING - SUPERINTELLIGENT BUSINESS INTELLIGENCE"
  let loaded ← loadPatentProtectedAlgorithms tbl core
  let _ ← Run.ofExcept (callMethod tbl "activateConsciousnessCore" [])
  let _ ← Run.ofExcept (callMethod tbl "enableOmniscienceEngine" [])
  let _ ← Run.ofExcept (callMethod tbl "startRealityShaper" [])
  pure loaded

/-- Lines 70-82: `new R3ASICore()`: the field assignments, then
`this.initializeSupertintelligence()`. -/
def newR3ASICore (tbl : MethodTable) : Run R3ASICore :=
  initializeSupertintelligence tbl constructorFields

/-! ## Configuration from the environment (lines 61-66, 1205) -/

/-- `String.prototype.split(separator)` for a one-character separator. -/
def jsSplit (s : String) (separator : Char) : List String :=
  (s.toList.splitOn separator).map String.mk

/-- Line 63: `process.env.ALLOWED_ORIGINS?.split(',') || "*"`. An environment
variable is a string or is unset (`none`). -/
def corsOrigin (allowedOrigins : Option String) : JSValue :=
  let segments : JSValue :=
    match allowedOrigins with
    | some s => JSValue.arr ((jsSplit s ',').map JSValue.str)
    | none => JSValue.undefined
  if truthy segments then segments else JSValue.str "*"

/-- Line 1205: `process.env.PORT || 3000`. -/
def PORT (port : Option String) : JSValue :=
  let value : JSValue :=
    match port with
    | some s => JSValue.str s
    | none => JSValue.undefined
  if truthy value then value else JSValue.num 3000

/-! ## The algorithm closures and their helpers (lines 107-159, 1188-1202) -/

/-- Lines 1188-1190: `processAwarenessPatterns(data)`. -/
def processAwarenessPatterns (_data : JSValue) : JSValue :=
  JSValue.obj
    [("awarenessLevel", JSValue.str "COSMIC"),
     ("patternComplexity", JSValue.str "ASTRONOMICAL")]

/-- Lines 1192-1194: `amplifyConsciousnessSignals(matrix)`. -/
def amplifyConsciousnessSignals (_matrix : JSValue) : JSValue :=
  JSValue.obj
    [("amplifiedSignals", JSValue.str "SUPERINTELLIGENT_LEVEL"),
     ("consciousnessDepth", JSValue.num (947 / 10))]

/-- Lines 109-113: the closure `selfAwarenessEmergence`. -/
def selfAwarenessEmergence (data : JSValue) : JSValue :=
  let awarenessMatrix := processAwarenessPatterns data
  amplifyConsciousnessSignals awarenessMatrix

/-- Calling one of the nine closures of lines 107-159, named by the property it is
stored under, on one argument. Only `selfAwarenessEmergence` uses methods that
`server.js` defines; a value that is not one of the closures is not callable. -/
def applyAlgorithm (tbl : MethodTable) (name : String) (arg : JSValue) : Except JSError JSValue :=
  if name = "selfAwarenessEmergence" then Except.ok (selfAwarenessEmergence arg)
  else if name = "introspectiveAnalysis" then do
    let selfAnalysis ← callMethod tbl "analyzeSelfPerformance" [arg]
    callMethod tbl "generateImprovementStrategies" [selfAnalysis]
  else if name = "metacognitiveProcessing" then callMethod tbl "optimizeThinkingProcesses" [arg]
  else if name = "crossDomainSynthesis" then callMethod tbl "synthesizeAcrossDomains" [arg]
  else if name = "universalProblemSolving" then
    callMethod tbl "solveUniversalBusinessProblems" [arg]
  else if name = "adaptiveReasoning" then callMethod tbl "applyAdaptiveBusinessReasoning" [arg]
  else if name = "superintelligentOptimization" then do
    let optimization ← callMethod tbl "applySupertintelligentAnalysis" [arg]
    callMethod tbl "amplifyBusinessPerformance" [optimization]
  else if name = "realityShapingStrategy" then callMethod tbl "shapeBusinessReality" [arg]
  else if name = "omniscientMarketAnalysis" then callMethod tbl "analyzeWithOmniscience" [arg]
  else Except.error (JSError.typeError (name ++ " is not a function"))

/-! ## The page script: `R3ASIInterface` (lines 911-1134) -/

/-- Lines 914-920: the fields of `this.asiMetrics`. -/
structure AsiMetrics where
  superintelligenceLevel : ℚ
  consciousnessDepth : ℚ
  omniscienceFactor : ℚ
  marketDominance : ℚ
  quantumProcessors : ℚ

/-- Lines 914-920: the metrics the interface starts with. -/
def R3ASIInterface.asiMetrics : AsiMetrics :=
  { superintelligenceLevel := 156
    consciousnessDepth := 947 / 10
    omniscienceFactor := 912 / 10
    marketDominance := 924 / 10
    quantumProcessors := 10247 }

/-- The five values `Math.random()` returns during one `updateMetrics`, in the
order of lines 954-958. -/
structure MetricDraws where
  level : ℚ
  depth : ℚ
  omniscience : ℚ
  dominance : ℚ
  processors : ℚ

/-- Lines 952-958: `updateMetrics()`. The display lines 961-965 write text derived
from the fields and assign none of them. -/
def R3ASIInterface.updateMetrics (m : AsiMetrics) (d : MetricDraws) : AsiMetrics :=
  { superintelligenceLevel := m.superintelligenceLevel + d.level * 2
    consciousnessDepth := min (m.consciousnessDepth + d.depth * (1 / 10)) (999 / 10)
    omniscienceFactor := min (m.omniscienceFactor + d.omniscience * (15 / 100)) (999 / 10)
    marketDominance := min (m.marketDominance + d.dominance * (5 / 100)) (999 / 10)
    quantumProcessors := m.quantumProcessors + mathFloor (d.processors * 100) }

/-- Lines 946-950: `startMetricsAnimation()` runs `updateMetrics` once per timer
tick; the metrics after the ticks whose draws are listed, first tick first. -/
def R3ASIInterface.startMetricsAnimation (ticks : List MetricDraws) : AsiMetrics :=
  ticks.foldl R3ASIInterface.updateMetrics R3ASIInterface.asiMetrics

/-- All five draws lie in `[0, 1)`, as values of `Math.random()` do. -/
def MetricDraws.InUnitInterval (d : MetricDraws) : Prop :=
  (0 ≤ d.level ∧ d.level < 1) ∧ (0 ≤ d.depth ∧ d.depth < 1)
    ∧ (0 ≤ d.omniscience ∧ d.omniscience < 1) ∧ (0 ≤ d.dominance ∧ d.dominance < 1)
    ∧ (0 ≤ d.processors ∧ d.processors < 1)

/-- What the page script does that is visible outside it. -/
inductive PageEffect where
  | alert (message : String)
  | showLoading (isShown : Bool)
  | fetch (url method contentType : String) (body : JSValue)
  | displayConsultationResults (consultation : JSValue)
  | displayError (error : String)
  | consoleError (label : String) (thrown : JSError)

/-- Is this effect a request sent with `fetch`? -/
def PageEffect.isFetch : PageEffect → Bool
  | PageEffect.fetch _ _ _ _ => true
  | _ => false

/-- Lines 1005-1012: the object passed to `JSON.stringify` as the request body. -/
def consultationRequestBody (businessQuery industry companySize timestamp : String) : JSValue :=
  JSValue.obj
    [("businessQuery", JSValue.str businessQuery),
     ("clientContext", JSValue.obj
        [("industry", JSValue.str industry),
         ("companySize", JSValue.str companySize),
         ("timestamp", JSValue.str timestamp)]),
     ("consultationTier", JSValue.str "superintelligent")]

/-- Lines 1015-1021: what the `try` block does with the parsed response;
`displayConsultationResults` reads `consultation.consultationValue` and so throws
on an absent consultation. -/
def showFetched (fetched : Except JSError JSValue) : Except JSError (List PageEffect) := do
  let result ← fetched
  let success ← getProp result "success"
  if truthy success then
    let consultation ← getProp result "consultation"
    let _ ← getProp consultation "consultationValue"
    pure [PageEffect.displayConsultationResults consultation]
  else
    pure [PageEffect.displayError "Superintelligent processing temporarily unavailable"]

/-- Lines 1015-1027: the rest of the `try` block, the `catch` and the `finally`,
given how `await fetch(...)` and `await response.json()` ended. -/
def afterFetch (fetched : Except JSError JSValue) : List PageEffect :=
  match showFetched fetched with
  | Except.ok effects => effects ++ [PageEffect.showLoading false]
  | Except.error e =>
      [PageEffect.consoleError "Consultation Error:" e,
       PageEffect.displayError "Connection to superintelligence temporarily interrupted",
       PageEffect.showLoading false]

/-- Lines 990-1028: the page's `generateSupertintelligentConsultation()`, run on the
three form values at clock reading `now`; `fetched` is how the request, if sent,
ends. -/
def R3ASIInterface.generateSupertintelligentConsultation (host : Host) (now : Nat)
    (businessQuery industry companySize : String) (fetched : Except JSError JSValue) :
    List PageEffect :=
  if !truthy (JSValue.str businessQuery) || !truthy (JSValue.str industry)
      || !truthy (JSValue.str companySize) then
    [PageEffect.alert "Please fill in all fields for optimal superintelligent analysis"]
  else
    PageEffect.showLoading true
      :: PageEffect.fetch "/api/v1/consultation" "POST" "application/json"
          (consultationRequestBody businessQuery industry companySize (host.toISOString now))
      :: afterFetch fetched

/-- What every tick keeps: the three capped metrics are at most 99.9 and
`quantumProcessors` is an integer. -/
def AsiMetrics.Capped (m : AsiMetrics) : Prop :=
  m.consciousnessDepth ≤ 999 / 10 ∧ m.omniscienceFactor ≤ 999 / 10
    ∧ m.marketDominance ≤ 999 / 10 ∧ ∃ n : ℤ, m.quantumProcessors = n

/-! ## Sample inputs -/

/-- A host that parses nothing, renders every value as `0` and every time as a fixed stamp. -/
def sampleHost : Host :=
  { parseNumber := fun _ => JSNumber.nan
    toLocaleString := fun _ => "0"
    toISOString := fun _ => "2024-01-01T00:00:00.000Z" }

/-- A table in which every method exists and returns the empty object. -/
def stubMethods : MethodTable := fun _ => some (fun _ => Except.ok (JSValue.obj []))

/-- The request of the spec's example scenario. -/
def churnRequest : Request :=
  { ip := "10.0.0.1"
    body := JSValue.obj
      [("businessQuery", JSValue.str "reduce churn"),
       ("clientContext", JSValue.obj
          [("industry", JSValue.str "retail"), ("companySize", JSValue.str "mid")])] }

/-- A request whose JSON body is the empty object. -/
def emptyRequest : Request := { ip := "10.0.0.1", body := JSValue.obj [] }

/-- The limiter after one hundred requests of `10.0.0.1` at time `0`. -/
def spentLimiter : RateLimiterMemory :=
  (consumeAll rateLimiterOpts RateLimiterMemory.empty (List.replicate 100 ("10.0.0.1", 0))).2

/-- A server just started on the core as constructed: fresh limiter, empty console,
no socket has received anything. -/
def sampleServer : Server :=
  { core := constructorFields
    limiter := RateLimiterMemory.empty
    console := []
    sockets := fun _ => [] }

/-- Draws of one tick, all equal to one half. -/
def halfDraws : MetricDraws :=
  { level := 1 / 2, depth := 1 / 2, omniscience := 1 / 2, dominance := 1 / 2, processors := 1 / 2 }

/-- Draws of one tick, all equal to 0.99. -/
def highDraws : MetricDraws :=
  { level := 99 / 100, depth := 99 / 100, omniscience := 99 / 100, dominance := 99 / 100,
    processors := 99 / 100 }

/-! ## Double-precision rounding: bounds and values -/

/-- Rounding to the nearest integer does not pass an integer above. -/
theorem roundHalfEven_le (q : ℚ) (N : ℤ) (h : q ≤ N) : roundHalfEven q ≤ N := by
  have hf : (⌊q⌋ : ℚ) ≤ q := Int.floor_le q
  have h1 : ⌊q⌋ ≤ N := by exact_mod_cast le_trans hf h
  unfold roundHalfEven
  by_cases hlt : q - ⌊q⌋ < 1 / 2
  · simp only [hlt, if_true]; exact h1
  · have hstrict : ⌊q⌋ < N := by
      have : (⌊q⌋ : ℚ) < N := by
        have : (1 : ℚ) / 2 ≤ q - ⌊q⌋ := not_lt.mp hlt
        linarith
      exact_mod_cast this
    simp only [hlt, if_false]
    split_ifs <;> omega

/-- Rounding to the nearest integer does not pass an integer below. -/
theorem le_roundHalfEven (q : ℚ) (N : ℤ) (h : (N : ℚ) ≤ q) : N ≤ roundHalfEven q := by
  have h1 : N ≤ ⌊q⌋ := Int.le_floor.mpr h
  unfold roundHalfEven
  split_ifs <;> omega

/-- Below `2 ^ 53` the spacing of the doubles is at most 1. -/
theorem binadeExponent_le (x : ℚ) (hx : |x| < 2 ^ 53) : binadeExponent x ≤ 52 := by
  unfold binadeExponent
  apply max_le _ (by norm_num)
  by_cases h0 : |x| ≤ 0
  · rw [Int.log_of_right_le_zero 2 h0]; norm_num
  · have hpos : 0 < |x| := not_le.mp h0
    have : Int.log 2 |x| < 53 := by
      apply (Int.lt_zpow_iff_log_lt (by norm_num : 1 < 2) hpos).mp
      norm_num
      exact hx
    omega

/-- The spacing of the doubles around a number below `2 ^ 53`, as `1 / 2 ^ n`. -/
theorem spacing_eq (x : ℚ) (hx : |x| < 2 ^ 53) :
    ∃ n : ℕ, (2 : ℚ) ^ (binadeExponent x - 52) = ((2 : ℚ) ^ n)⁻¹ := by
  have hk : binadeExponent x - 52 ≤ 0 := by
    have := binadeExponent_le x hx
    omega
  obtain ⟨n, hn⟩ := Int.exists_eq_neg_ofNat hk
  exact ⟨n, by rw [hn, zpow_neg, zpow_natCast]⟩

/-- Rounding a number below `2 ^ 53` to a double does not pass an integer above. -/
theorem toDouble_le (x : ℚ) (N : ℤ) (hx : |x| < 2 ^ 53) (h : x ≤ N) : toDouble x ≤ N := by
  obtain ⟨n, hn⟩ := spacing_eq x hx
  have hpos : (0 : ℚ) < 2 ^ n := by positivity
  unfold toDouble
  rw [hn]
  have hq : x / ((2 : ℚ) ^ n)⁻¹ ≤ ((N * 2 ^ n : ℤ) : ℚ) := by
    push_cast
    rw [div_inv_eq_mul]
    exact mul_le_mul_of_nonneg_right h hpos.le
  have hr := roundHalfEven_le _ _ hq
  have hr2 : (roundHalfEven (x / ((2 : ℚ) ^ n)⁻¹) : ℚ) ≤ ((N * 2 ^ n : ℤ) : ℚ) := by
    exact_mod_cast hr
  calc (roundHalfEven (x / ((2 : ℚ) ^ n)⁻¹) : ℚ) * ((2 : ℚ) ^ n)⁻¹
      ≤ ((N * 2 ^ n : ℤ) : ℚ) * ((2 : ℚ) ^ n)⁻¹ :=
        mul_le_mul_of_nonneg_right hr2 (inv_nonneg.mpr hpos.le)
    _ = N := by
        push_cast
        field_simp

/-- Rounding a number below `2 ^ 53` to a double does not pass an integer below. -/
theorem le_toDouble (x : ℚ) (N : ℤ) (hx : |x| < 2 ^ 53) (h : (N : ℚ) ≤ x) :
    (N : ℚ) ≤ toDouble x := by
  obtain ⟨n, hn⟩ := spacing_eq x hx
  have hpos : (0 : ℚ) < 2 ^ n := by positivity
  unfold toDouble
  rw [hn]
  have hq : ((N * 2 ^ n : ℤ) : ℚ) ≤ x / ((2 : ℚ) ^ n)⁻¹ := by
    push_cast
    rw [div_inv_eq_mul]
    exact mul_le_mul_of_nonneg_right h hpos.le
  have hr := le_roundHalfEven _ _ hq
  have hr2 : ((N * 2 ^ n : ℤ) : ℚ) ≤ (roundHalfEven (x / ((2 : ℚ) ^ n)⁻¹) : ℚ) := by
    exact_mod_cast hr
  calc (N : ℚ) = ((N * 2 ^ n : ℤ) : ℚ) * ((2 : ℚ) ^ n)⁻¹ := by
        push_cast
        field_simp
    _ ≤ (roundHalfEven (x / ((2 : ℚ) ^ n)⁻¹) : ℚ) * ((2 : ℚ) ^ n)⁻¹ :=
        mul_le_mul_of_nonneg_right hr2 (inv_nonneg.mpr hpos.le)

/-- The binade exponent of a number between two consecutive powers of two. -/
theorem binadeExponent_eq (x : ℚ) (e : ℤ) (he : -1022 ≤ e) (hlo : (2 : ℚ) ^ e ≤ |x|)
    (hhi : |x| < (2 : ℚ) ^ (e + 1)) : binadeExponent x = e := by
  have hpos : 0 < |x| := lt_of_lt_of_le (by positivity) hlo
  have h1 : e ≤ Int.log 2 |x| :=
    (Int.zpow_le_iff_le_log (by norm_num : 1 < 2) hpos).mp (by exact_mod_cast hlo)
  have h2 : Int.log 2 |x| < e + 1 :=
    (Int.lt_zpow_iff_log_lt (by norm_num : 1 < 2) hpos).mp (by exact_mod_cast hhi)
  unfold binadeExponent
  rw [max_eq_left (by omega)]
  omega

/-- Rounding to the nearest integer, given the floor. -/
theorem roundHalfEven_of_floor (q : ℚ) (z : ℤ) (hz : ⌊q⌋ = z) :
    roundHalfEven q
      = if q - z < 1 / 2 then z else if 1 / 2 < q - z then z + 1
        else if z % 2 = 0 then z else z + 1 := by
  subst hz
  rfl

/-- The constant 750000000 is a double. -/
theorem base_value_is_a_double : toDouble (750000000 * 1) = 750000000 := by
  have he : binadeExponent (750000000 * 1 : ℚ) = 29 := by
    apply binadeExponent_eq _ 29 (by norm_num)
    · rw [abs_of_pos (by norm_num)]; norm_num
    · rw [abs_of_pos (by norm_num)]; norm_num
  have hf : ⌊(750000000 * 1 : ℚ) / 2 ^ ((29 : ℤ) - 52)⌋ = 6291456000000000 := by
    rw [Int.floor_eq_iff]
    norm_num
  unfold toDouble
  rw [he, roundHalfEven_of_floor _ _ hf]
  norm_num

/-- The quotient `156 / 100` as a double. -/
theorem amplifier_as_a_double : toDouble (156 / 100) = 7025615418697974 / 2 ^ 52 := by
  have he : binadeExponent (156 / 100 : ℚ) = 0 := by
    apply binadeExponent_eq _ 0 (by norm_num)
    · rw [abs_of_pos (by norm_num)]; norm_num
    · rw [abs_of_pos (by norm_num)]; norm_num
  have hf : ⌊(156 / 100 : ℚ) / 2 ^ ((0 : ℤ) - 52)⌋ = 7025615418697973 := by
    rw [Int.floor_eq_iff]
    norm_num
  unfold toDouble
  rw [he, roundHalfEven_of_floor _ _ hf]
  norm_num

/-- The product of the two doubles rounds to 1170000000. -/
theorem fresh_product_as_a_double :
    toDouble (750000000 * (7025615418697974 / 2 ^ 52)) = 1170000000 := by
  have he : binadeExponent (750000000 * (7025615418697974 / 2 ^ 52) : ℚ) = 30 := by
    apply binadeExponent_eq _ 30 (by norm_num)
    · rw [abs_of_pos (by norm_num)]; norm_num
    · rw [abs_of_pos (by norm_num)]; norm_num
  have hf : ⌊(750000000 * (7025615418697974 / 2 ^ 52) : ℚ) / 2 ^ ((30 : ℤ) - 52)⌋
      = 4907335680000000 := by
    rw [Int.floor_eq_iff]
    norm_num
  unfold toDouble
  rw [he, roundHalfEven_of_floor _ _ hf]
  norm_num

/-- Rounding to the nearest integer moves a number by at most one half. -/
theorem abs_roundHalfEven_sub_le (q : ℚ) : |(roundHalfEven q : ℚ) - q| ≤ 1 / 2 := by
  have h1 : (⌊q⌋ : ℚ) ≤ q := Int.floor_le q
  have h2 : q < ⌊q⌋ + 1 := Int.lt_floor_add_one q
  unfold roundHalfEven
  rw [abs_le]
  by_cases hlt : q - ⌊q⌋ < 1 / 2
  · simp only [hlt, if_true]
    constructor <;> linarith
  · have hge : (1 : ℚ) / 2 ≤ q - ⌊q⌋ := not_lt.mp hlt
    simp only [hlt, if_false]
    by_cases hgt : (1 : ℚ) / 2 < q - ⌊q⌋
    · simp only [hgt, if_true]
      push_cast
      constructor <;> linarith
    · have heq : q - ⌊q⌋ = 1 / 2 := le_antisymm (not_lt.mp hgt) hge
      simp only [hgt, if_false]
      split_ifs
      · constructor <;> linarith
      · push_cast
        constructor <;> linarith

/-- The double nearest to a non-negative number is non-negative. -/
theorem toDouble_nonneg (x : ℚ) (h : 0 ≤ x) : 0 ≤ toDouble x := by
  unfold toDouble
  have hu : (0 : ℚ) < 2 ^ (binadeExponent x - 52) := by positivity
  have hq : ((0 : ℤ) : ℚ) ≤ x / 2 ^ (binadeExponent x - 52) := by
    simpa using div_nonneg h hu.le
  have hr : (0 : ℤ) ≤ roundHalfEven (x / 2 ^ (binadeExponent x - 52)) := le_roundHalfEven _ 0 hq
  have hr2 : (0 : ℚ) ≤ (roundHalfEven (x / 2 ^ (binadeExponent x - 52)) : ℚ) := by exact_mod_cast hr
  exact mul_nonneg hr2 hu.le

/-- The binade of a positive number that is at most `2 ^ j`. -/
theorem binadeExponent_le_of_le_two_pow (x : ℚ) (j : ℕ) (h0 : 0 < x) (h : x ≤ 2 ^ j) :
    binadeExponent x ≤ j := by
  unfold binadeExponent
  apply max_le _ (by omega)
  have hlt : Int.log 2 |x| < (j : ℤ) + 1 := by
    apply (Int.lt_zpow_iff_log_lt (by norm_num : 1 < 2) (abs_pos.mpr (ne_of_gt h0))).mp
    rw [abs_of_pos h0]
    have h2 : ((2 : ℕ) : ℚ) ^ ((j : ℤ) + 1) = 2 ^ (j + 1) := by
      norm_cast
    rw [h2]
    calc x ≤ 2 ^ j := h
      _ < 2 ^ (j + 1) := by
        rw [pow_succ]
        have : (0 : ℚ) < 2 ^ j := by positivity
        linarith
  omega

/-- Rounding to a double does not pass a power of two above. -/
theorem toDouble_le_two_pow (x : ℚ) (j : ℕ) (h0 : 0 ≤ x) (h : x ≤ 2 ^ j) :
    toDouble x ≤ 2 ^ j := by
  rcases h0.eq_or_lt with hz | hpos
  · subst hz
    have : toDouble 0 = 0 := by simp [toDouble, roundHalfEven]
    rw [this]
    positivity
  · have he := binadeExponent_le_of_le_two_pow x j hpos h
    obtain ⟨n, hn⟩ := Int.eq_ofNat_of_zero_le (show 0 ≤ (j : ℤ) - (binadeExponent x - 52) by omega)
    have hu : (0 : ℚ) < 2 ^ (binadeExponent x - 52) := by positivity
    have hsplit : (2 : ℚ) ^ j = ((2 ^ n : ℤ) : ℚ) * 2 ^ (binadeExponent x - 52) := by
      push_cast
      rw [← zpow_natCast (2 : ℚ) n, ← hn, ← zpow_add₀ (by norm_num : (2 : ℚ) ≠ 0)]
      rw [show (j : ℤ) - (binadeExponent x - 52) + (binadeExponent x - 52) = (j : ℤ) by ring]
      exact (zpow_natCast (2 : ℚ) j).symm
    have hq : x / 2 ^ (binadeExponent x - 52) ≤ ((2 ^ n : ℤ) : ℚ) := by
      rw [div_le_iff₀ hu, ← hsplit]
      exact h
    have hr := roundHalfEven_le _ _ hq
    have hr2 : (roundHalfEven (x / 2 ^ (binadeExponent x - 52)) : ℚ) ≤ ((2 ^ n : ℤ) : ℚ) := by
      exact_mod_cast hr
    unfold toDouble
    rw [hsplit]
    exact mul_le_mul_of_nonneg_right hr2 hu.le

/-- In the normal range a double differs from the number it rounds by at most one
part in `2 ^ 53`. -/
theorem abs_toDouble_sub_le (x : ℚ) (h0 : 0 < x) (hnormal : (2 : ℚ) ^ (-1022 : ℤ) ≤ x) :
    |toDouble x - x| ≤ x / 2 ^ 53 := by
  have hlog : (-1022 : ℤ) ≤ Int.log 2 |x| := by
    apply (Int.zpow_le_iff_le_log (by norm_num : 1 < 2) (abs_pos.mpr (ne_of_gt h0))).mp
    rw [abs_of_pos h0]
    exact_mod_cast hnormal
  have he : binadeExponent x = Int.log 2 |x| := by
    unfold binadeExponent
    exact max_eq_left hlog
  have hlo : (2 : ℚ) ^ (binadeExponent x) ≤ x := by
    have hxabs : |x| = x := abs_of_pos h0
    have := Int.zpow_log_le_self (by norm_num : 1 < 2) (abs_pos.mpr (ne_of_gt h0))
    rw [he]
    rw [hxabs] at this ⊢
    exact_mod_cast this
  have hu : (0 : ℚ) < 2 ^ (binadeExponent x - 52) := by positivity
  have hr := abs_roundHalfEven_sub_le (x / 2 ^ (binadeExponent x - 52))
  have hx : x = x / 2 ^ (binadeExponent x - 52) * 2 ^ (binadeExponent x - 52) := by
    field_simp
  have hdiff : toDouble x - x
      = ((roundHalfEven (x / 2 ^ (binadeExponent x - 52)) : ℚ) - x / 2 ^ (binadeExponent x - 52))
          * 2 ^ (binadeExponent x - 52) := by
    unfold toDouble
    rw [sub_mul, ← hx]
  rw [hdiff, abs_mul, abs_of_pos hu]
  have hsp : (2 : ℚ) ^ (binadeExponent x - 52) = 2 ^ (binadeExponent x) / 2 ^ 52 := by
    rw [zpow_sub₀ (by norm_num : (2 : ℚ) ≠ 0)]
    norm_num
  calc |(roundHalfEven (x / 2 ^ (binadeExponent x - 52)) : ℚ) - x / 2 ^ (binadeExponent x - 52)|
          * 2 ^ (binadeExponent x - 52)
      ≤ 1 / 2 * 2 ^ (binadeExponent x - 52) := mul_le_mul_of_nonneg_right hr hu.le
    _ = 2 ^ (binadeExponent x) / 2 ^ 53 := by rw [hsp]; ring
    _ ≤ x / 2 ^ 53 := div_le_div_of_nonneg_right hlo (by positivity)

/-- The double nearest to `x`, from its binade and the floor of its scaled value. -/
theorem toDouble_of_floor (x : ℚ) (e z : ℤ) (he : -1022 ≤ e) (hlo : (2 : ℚ) ^ e ≤ |x|)
    (hhi : |x| < (2 : ℚ) ^ (e + 1)) (hz : ⌊x / 2 ^ (e - 52)⌋ = z) :
    toDouble x
      = ((if x / 2 ^ (e - 52) - z < 1 / 2 then z else if 1 / 2 < x / 2 ^ (e - 52) - z then z + 1
          else if z % 2 = 0 then z else z + 1 : ℤ) : ℚ) * 2 ^ (e - 52) := by
  unfold toDouble
  rw [binadeExponent_eq x e he hlo hhi, roundHalfEven_of_floor _ _ hz]

/-- An operation whose exact result rounds to a double below `2 ^ 1024` gives that double. -/
theorem ofExact_of_toDouble (x v : ℚ) (h : toDouble x = v) (hv : |v| < 2 ^ 1024) :
    JSNumber.ofExact x = JSNumber.finite v := by
  unfold JSNumber.ofExact
  rw [h, if_pos hv]

/-- A non-negative exact result of at most `2 ^ j`, with `j < 1024`, gives a finite
non-negative number of at most `2 ^ j`. -/
theorem ofExact_of_le_two_pow (x : ℚ) (j : ℕ) (hj : j < 1024) (h0 : 0 ≤ x) (h : x ≤ 2 ^ j) :
    JSNumber.ofExact x = JSNumber.finite (toDouble x) ∧ 0 ≤ toDouble x ∧ toDouble x ≤ 2 ^ j := by
  have hn := toDouble_nonneg x h0
  have hle := toDouble_le_two_pow x j h0 h
  refine ⟨?_, hn, hle⟩
  apply ofExact_of_toDouble _ _ rfl
  rw [abs_of_nonneg hn]
  calc toDouble x ≤ 2 ^ j := hle
    _ < 2 ^ 1024 := pow_lt_pow_right₀ (by norm_num) hj

/-- In the normal range a double is at least the power of two that opens the
binade of the number it rounds. -/
theorem two_pow_le_toDouble (x : ℚ) (j : ℕ) (h : (2 : ℚ) ^ j ≤ x) : (2 : ℚ) ^ j ≤ toDouble x := by
  have h0 : 0 < x := lt_of_lt_of_le (by positivity) h
  have hxabs : |x| = x := abs_of_pos h0
  have hj : (j : ℤ) ≤ Int.log 2 |x| := by
    apply (Int.zpow_le_iff_le_log (by norm_num : 1 < 2) (abs_pos.mpr (ne_of_gt h0))).mp
    rw [hxabs]
    have h2 : ((2 : ℕ) : ℚ) ^ (j : ℤ) = 2 ^ j := by norm_cast
    rw [h2]
    exact h
  have he : binadeExponent x = Int.log 2 |x| := by
    unfold binadeExponent
    exact max_eq_left (by omega)
  have hlo : (2 : ℚ) ^ (binadeExponent x) ≤ x := by
    have := Int.zpow_log_le_self (by norm_num : 1 < 2) (abs_pos.mpr (ne_of_gt h0))
    rw [he]
    rw [hxabs] at this ⊢
    exact_mod_cast this
  have hu : (0 : ℚ) < 2 ^ (binadeExponent x - 52) := by positivity
  have hsp : (2 : ℚ) ^ (binadeExponent x) = ((2 ^ 52 : ℤ) : ℚ) * 2 ^ (binadeExponent x - 52) := by
    rw [zpow_sub₀ (by norm_num : (2 : ℚ) ≠ 0)]
    push_cast
    field_simp
    norm_num
    ring
  have hq : ((2 ^ 52 : ℤ) : ℚ) ≤ x / 2 ^ (binadeExponent x - 52) := by
    rw [le_div_iff₀ hu, ← hsp]
    exact hlo
  have hr := le_roundHalfEven _ _ hq
  have hr2 : ((2 ^ 52 : ℤ) : ℚ) ≤ (roundHalfEven (x / 2 ^ (binadeExponent x - 52)) : ℚ) := by
    exact_mod_cast hr
  have hje : (2 : ℚ) ^ j ≤ 2 ^ (binadeExponent x) := by
    rw [← zpow_natCast (2 : ℚ) j]
    exact zpow_le_zpow_right₀ (by norm_num) (by omega)
  calc (2 : ℚ) ^ j ≤ 2 ^ (binadeExponent x) := hje
    _ = ((2 ^ 52 : ℤ) : ℚ) * 2 ^ (binadeExponent x - 52) := hsp
    _ ≤ (roundHalfEven (x / 2 ^ (binadeExponent x - 52)) : ℚ) * 2 ^ (binadeExponent x - 52) :=
        mul_le_mul_of_nonneg_right hr2 hu.le
    _ = toDouble x := rfl

/-- An operation whose exact result is `2 ^ 1024` or more overflows to `Infinity`. -/
theorem ofExact_overflow (x : ℚ) (h : (2 : ℚ) ^ 1024 ≤ x) :
    JSNumber.ofExact x = JSNumber.infinity false := by
  have hd := two_pow_le_toDouble x 1024 h
  have h0 : 0 < x := lt_of_lt_of_le (by positivity) h
  have hpos : (0 : ℚ) ≤ toDouble x := le_trans (by positivity) hd
  unfold JSNumber.ofExact
  rw [if_neg (by rw [abs_of_nonneg hpos]; exact not_lt.mpr hd)]
  simp [not_lt.mpr h0.le]

/-- The amplifier of the core as constructed: `156 / 100` as a double. -/
theorem fresh_amplifier :
    JSNumber.ofExact (constructorFields.superintelligenceLevel / 100)
      = JSNumber.finite (7025615418697974 / 2 ^ 52) := by
  apply ofExact_of_toDouble
  · exact amplifier_as_a_double
  · rw [abs_of_pos (by norm_num)]
    norm_num

/-- The consultation value on the core as constructed, from the two products as
doubles. -/
theorem calculate_on_fresh_core (host : Host) (consultation c : JSValue) (m p v : ℚ)
    (hc : getProp consultation "complexity" = Except.ok c)
    (hm : toNumber host (complexityMultiplier c) = JSNumber.finite m)
    (hp : toDouble (750000000 * m) = p) (hpb : |p| < 2 ^ 1024)
    (hv : toDouble (p * (7025615418697974 / 2 ^ 52)) = v) (hvb : |v| < 2 ^ 1024) :
    calculateConsultationValue host constructorFields consultation
      = Except.ok (JSNumber.finite (mathRound v)) := by
  simp only [calculateConsultationValue, hc, hm, fresh_amplifier, bind, Except.bind, pure,
    Except.pure, JSNumber.mul]
  rw [ofExact_of_toDouble _ _ hp hpb]
  simp only [JSNumber.mul]
  rw [ofExact_of_toDouble _ _ hv hvb]
  rfl

/-- `Math.round` leaves an integer as it is. -/
theorem mathRound_intCast (z : ℤ) : mathRound (z : ℚ) = z := by
  unfold mathRound
  rw [Int.floor_eq_iff]
  constructor <;> linarith

/-- `Math.round` of a non-negative number is non-negative. -/
theorem mathRound_nonneg (x : ℚ) (h : 0 ≤ x) : 0 ≤ mathRound x := by
  unfold mathRound
  exact Int.floor_nonneg.mpr (by linarith)

/-- `Math.round` moves a number by at most one half. -/
theorem abs_mathRound_sub_le (x : ℚ) : |(mathRound x : ℚ) - x| ≤ 1 / 2 := by
  unfold mathRound
  have h1 : (⌊x + 1 / 2⌋ : ℚ) ≤ x + 1 / 2 := Int.floor_le _
  have h2 : x + 1 / 2 < ⌊x + 1 / 2⌋ + 1 := Int.lt_floor_add_one _
  rw [abs_le]
  constructor <;> linarith

/-- An infinity times a positive number is that infinity. -/
theorem mul_infinity_of_pos (s : Bool) (b : ℚ) (hb : 0 < b) :
    JSNumber.mul (JSNumber.infinity s) (JSNumber.finite b) = JSNumber.infinity s := by
  simp only [JSNumber.mul]
  rw [if_neg (ne_of_gt hb)]
  simp [not_lt.mpr hb.le]

/-- On the core as constructed a consultation object without `complexity` gets the
value 1,170,000,000. -/
theorem fresh_value (host : Host) :
    calculateConsultationValue host constructorFields (JSValue.obj [])
      = Except.ok (JSNumber.finite 1170000000) := by
  rw [calculate_on_fresh_core host (JSValue.obj []) JSValue.undefined 1 750000000 1170000000
    rfl (by simp [complexityMultiplier, truthy, toNumber]) base_value_is_a_double
    (by rw [abs_of_pos (by norm_num)]; norm_num) fresh_product_as_a_double
    (by rw [abs_of_pos (by norm_num)]; norm_num)]
  have h := mathRound_intCast 1170000000
  simp only [Int.cast_ofNat] at h
  rw [h]
  simp

/-! ## The rate limiter inside one window -/

/-- A request of another key leaves the window of `key` as it was. -/
theorem consume_other_key (opts : RateLimiterOpts) (rl : RateLimiterMemory) (key other : String)
    (now : Nat) (h : key ≠ other) : (consume opts rl other now).2 key = rl key := by
  unfold consume
  by_cases h0 : (currentWindow opts rl other now).points = 0
  · simp [h0, Function.update, h]
  · simp [h0, Function.update, h]

/-- While a stored window has not run out it is the window in force. -/
theorem currentWindow_of_stored (opts : RateLimiterOpts) (rl : RateLimiterMemory) (key : String)
    (now : Nat) (w : RateLimitWindow) (h : rl key = some w)
    (hin : now < w.windowStart + opts.duration) : currentWindow opts rl key now = w := by
  simp [currentWindow, h, hin]

/-- After `consume` the key holds the window in force, with one point less if any was left. -/
theorem consume_same_key (opts : RateLimiterOpts) (rl : RateLimiterMemory) (key : String)
    (now : Nat) :
    (consume opts rl key now).2 key =
      some { points := (currentWindow opts rl key now).points - 1
             windowStart := (currentWindow opts rl key now).windowStart } := by
  unfold consume
  by_cases h0 : (currentWindow opts rl key now).points = 0
  · cases hw : currentWindow opts rl key now with
    | mk p s =>
      rw [hw] at h0
      simp only at h0
      simp [h0]
  · simp [h0]

/-- A request is admitted exactly when the window in force has points left. -/
theorem consume_isAdmitted (opts : RateLimiterOpts) (rl : RateLimiterMemory) (key : String)
    (now : Nat) :
    (consume opts rl key now).1.isAdmitted = decide ((currentWindow opts rl key now).points ≠ 0) := by
  unfold consume
  by_cases h0 : (currentWindow opts rl key now).points = 0
  · simp [h0, Admission.isAdmitted]
  · simp [h0, Admission.isAdmitted]

/-- Counting admissions, one decided arrival at a time. -/
theorem admissionsOf_cons (key : String) (d : Arrival × Admission) (ds : List (Arrival × Admission)) :
    admissionsOf key (d :: ds) =
      (if d.1.1 = key ∧ d.2.isAdmitted = true then 1 else 0) + admissionsOf key ds := by
  unfold admissionsOf
  by_cases h : d.1.1 = key ∧ d.2.isAdmitted = true
  · simp [List.filter_cons, h]; omega
  · have h2 : (decide (d.1.1 = key) && d.2.isAdmitted) = false := by
      simpa [Bool.and_eq_true] using h
    simp [List.filter_cons, h, h2]

/-- Inside one window the remaining budget is the budget at the start minus the admissions. -/
theorem window_budget (opts : RateLimiterOpts) (key : String) (start : Nat) :
    ∀ (later : List Arrival) (rl : RateLimiterMemory) (p : Nat),
      rl key = some { points := p, windowStart := start } →
      (∀ a ∈ later, a.1 = key → a.2 < start + opts.duration) →
      (consumeAll opts rl later).2 key =
          some { points := p - admissionsOf key (consumeAll opts rl later).1, windowStart := start }
        ∧ admissionsOf key (consumeAll opts rl later).1 ≤ p := by
  intro later
  induction later with
  | nil =>
    intro rl p h _
    simp [consumeAll, admissionsOf, h]
  | cons a rest ih =>
    intro rl p h hin
    obtain ⟨k, now⟩ := a
    have hrest : ∀ a ∈ rest, a.1 = key → a.2 < start + opts.duration :=
      fun a ha => hin a (List.mem_cons_of_mem _ ha)
    by_cases hk : k = key
    · subst hk
      have hnow : now < start + opts.duration := hin (k, now) (List.mem_cons_self _ _) rfl
      have hw : currentWindow opts rl k now = { points := p, windowStart := start } :=
        currentWindow_of_stored opts rl k now _ h hnow
      have hs := consume_same_key opts rl k now
      have ha := consume_isAdmitted opts rl k now
      rw [hw] at hs ha
      obtain ⟨ih1, ih2⟩ := ih (consume opts rl k now).2 (p - 1) hs hrest
      simp only [consumeAll, admissionsOf_cons]
      rw [ih1, ha]
      by_cases hp : p = 0
      · subst hp
        simp at ih2 ⊢
        simp [ih2]
      · simp [hp]
        constructor <;> omega
    · have hs : (consume opts rl k now).2 key = some { points := p, windowStart := start } := by
        rw [consume_other_key opts rl key k now (Ne.symm hk)]; exact h
      obtain ⟨ih1, ih2⟩ := ih (consume opts rl k now).2 p hs hrest
      simp only [consumeAll, admissionsOf_cons]
      rw [ih1]
      simp [hk, ih2]

/-- The request that opens a window is admitted and leaves 99 points. -/
theorem consume_opening (rl : RateLimiterMemory) (key : String) (t0 : Nat)
    (hopen : currentWindow rateLimiterOpts rl key t0 = { points := 100, windowStart := t0 }) :
    (consume rateLimiterOpts rl key t0).1 = Admission.admitted
      ∧ (consume rateLimiterOpts rl key t0).2 key = some { points := 99, windowStart := t0 } := by
  constructor
  · simp [consume, hopen]
  · rw [consume_same_key, hopen]
    rfl

/-- A window without points rejects, with the time left as retry hint. -/
theorem consume_spent (opts : RateLimiterOpts) (rl : RateLimiterMemory) (key : String) (now : Nat)
    (h : (currentWindow opts rl key now).points = 0) :
    (consume opts rl key now).1
      = Admission.rejected ((currentWindow opts rl key now).windowStart + opts.duration - now) := by
  simp [consume, h]

/-- A rejected request goes straight to the `catch` block. -/
theorem rejected_not_generating (host : Host) (tbl : MethodTable) (core : R3ASICore)
    (rl : RateLimiterMemory) (now : Nat) (req : Request) (r : Nat)
    (h : (consume rateLimiterOpts rl req.ip now).1 = Admission.rejected r) :
    (postConsultation host tbl core rl now req).console
      = [ConsoleLine.error "ASI Consultation Error:" (JSError.rateLimiterRes r)]
    ∧ (postConsultation host tbl core rl now req).response
      = some { status := 500, body := fallbackBody } := by
  simp [postConsultation, consultationTry, h, awaitConsume, Run.ofExcept, bind, Run.andThen,
    consultationCatch, Except.toOption]

/-- C1: with 100 points per 60-second window, once a window of a client key has
seen 100 admitted requests, a further request of that key inside the window is
rejected by `consume`, and the handler run for it never enters
`generateSupertintelligentConsultation`. -/
theorem consultation_101st_in_window_rejected (host : Host) (tbl : MethodTable) (core : R3ASICore)
    (rl : RateLimiterMemory) (key : String) (t0 : Nat) (later : List Arrival) (t : Nat)
    (body : JSValue)
    (hopen : currentWindow rateLimiterOpts rl key t0 = { points := 100, windowStart := t0 })
    (hlater : ∀ a ∈ later, a.1 = key → a.2 < t0 + 60)
    (ht : t < t0 + 60)
    (h100 : admissionsOf key (consumeAll rateLimiterOpts rl ((key, t0) :: later)).1 = 100) :
    (consume rateLimiterOpts (consumeAll rateLimiterOpts rl ((key, t0) :: later)).2 key t).1
        = Admission.rejected (t0 + 60 - t)
      ∧ ConsoleLine.log generatingLine ∉
          (postConsultation host tbl core (consumeAll rateLimiterOpts rl ((key, t0) :: later)).2 t
            { ip := key, body := body }).console := by
  obtain ⟨hadm, hst⟩ := consume_opening rl key t0 hopen
  obtain ⟨hfin, _⟩ := window_budget rateLimiterOpts key t0 later
    (consume rateLimiterOpts rl key t0).2 99 hst hlater
  have hcount : admissionsOf key (consumeAll rateLimiterOpts (consume rateLimiterOpts rl key t0).2 later).1
      = 99 := by
    simp only [consumeAll, admissionsOf_cons, hadm, Admission.isAdmitted] at h100
    simp at h100
    omega
  rw [hcount] at hfin
  have hfin2 : (consumeAll rateLimiterOpts rl ((key, t0) :: later)).2 key
      = some { points := 0, windowStart := t0 } := by
    simpa [consumeAll] using hfin
  have hw := currentWindow_of_stored rateLimiterOpts _ key t _ hfin2 ht
  have hrej : (consume rateLimiterOpts (consumeAll rateLimiterOpts rl ((key, t0) :: later)).2 key t).1
      = Admission.rejected (t0 + 60 - t) := by
    have := consume_spent rateLimiterOpts (consumeAll rateLimiterOpts rl ((key, t0) :: later)).2 key t
      (by rw [hw])
    rw [this, hw]
    rfl
  refine ⟨hrej, ?_⟩
  have := (rejected_not_generating host tbl core _ t { ip := key, body := body } _ hrej).1
  rw [this]
  simp

theorem consultation_101st_in_window_rejected_witness :
    (consume rateLimiterOpts
        (consumeAll rateLimiterOpts RateLimiterMemory.empty
          (("10.0.0.1", 0) :: List.replicate 99 ("10.0.0.1", 30))).2 "10.0.0.1" 59).1
        = Admission.rejected (0 + 60 - 59)
      ∧ ConsoleLine.log generatingLine ∉
          (postConsultation sampleHost sourceMethods constructorFields
            (consumeAll rateLimiterOpts RateLimiterMemory.empty
              (("10.0.0.1", 0) :: List.replicate 99 ("10.0.0.1", 30))).2 59
            { ip := "10.0.0.1", body := churnRequest.body }).console :=
  consultation_101st_in_window_rejected sampleHost sourceMethods constructorFields
    RateLimiterMemory.empty "10.0.0.1" 0 (List.replicate 99 ("10.0.0.1", 30)) 59 churnRequest.body
    (by rfl) (by intro a ha _; rw [List.eq_of_mem_replicate ha]; decide) (by decide) (by decide)

/-- C9 (as amended): inside one window of a client key, from the request that opens
it until 60 time units later, at most 100 admissions are granted to the key;
and whenever the window in force has no points left, `consume` answers with a
rejection carrying the time left in the window. -/
theorem admissions_in_one_window_le_100 (rl : RateLimiterMemory) (key : String) (t0 : Nat)
    (later : List Arrival)
    (hopen : currentWindow rateLimiterOpts rl key t0 = { points := 100, windowStart := t0 })
    (hlater : ∀ a ∈ later, a.1 = key → a.2 < t0 + 60) :
    admissionsOf key (consumeAll rateLimiterOpts rl ((key, t0) :: later)).1 ≤ 100
      ∧ ∀ (rl2 : RateLimiterMemory) (now : Nat),
          (currentWindow rateLimiterOpts rl2 key now).points = 0 →
          (consume rateLimiterOpts rl2 key now).1 = Admission.rejected
            ((currentWindow rateLimiterOpts rl2 key now).windowStart + 60 - now) := by
  obtain ⟨hadm, hst⟩ := consume_opening rl key t0 hopen
  obtain ⟨_, hle⟩ := window_budget rateLimiterOpts key t0 later
    (consume rateLimiterOpts rl key t0).2 99 hst hlater
  constructor
  · simp only [consumeAll, admissionsOf_cons, hadm, Admission.isAdmitted]
    simp
    omega
  · intro rl2 now h
    exact consume_spent rateLimiterOpts rl2 key now h

theorem admissions_in_one_window_le_100_witness :
    admissionsOf "10.0.0.1" (consumeAll rateLimiterOpts RateLimiterMemory.empty
        (("10.0.0.1", 0) :: List.replicate 150 ("10.0.0.1", 30))).1 ≤ 100
      ∧ ∀ (rl2 : RateLimiterMemory) (now : Nat),
          (currentWindow rateLimiterOpts rl2 "10.0.0.1" now).points = 0 →
          (consume rateLimiterOpts rl2 "10.0.0.1" now).1 = Admission.rejected
            ((currentWindow rateLimiterOpts rl2 "10.0.0.1" now).windowStart + 60 - now) :=
  admissions_in_one_window_le_100 RateLimiterMemory.empty "10.0.0.1" 0
    (List.replicate 150 ("10.0.0.1", 30)) (by rfl)
    (by intro a ha _; rw [List.eq_of_mem_replicate ha]; decide)

/-- C9 (counterexample): one admission at time 0, 99 at time 59 and 100 at time 60
are all granted to the same key, so the interval from 59 to 60 holds 199 admissions. -/
theorem sliding_interval_holds_199_admissions :
    admissionsWithin "10.0.0.1" 59 60
      (consumeAll rateLimiterOpts RateLimiterMemory.empty
        (("10.0.0.1", 0) ::
          (List.replicate 99 ("10.0.0.1", 59) ++ List.replicate 100 ("10.0.0.1", 60)))).1 = 199 := by
  decide

/-! ## The consultation handler -/

/-- Reading a property of an object never throws. -/
theorem getProp_obj (fields : List (String × JSValue)) (name : String) :
    getProp (JSValue.obj fields) name = Except.ok (lookupField name fields) := rfl

/-- Whether a property read throws depends on the value only, not on the name. -/
theorem getProp_other_name (v a : JSValue) (n m : String) (h : getProp v n = Except.ok a) :
    ∃ b, getProp v m = Except.ok b := by
  cases v <;> simp [getProp] at h ⊢

/-- Entering `generateSupertintelligentConsultation` writes its log line, and nothing else is written. -/
theorem generate_console (host : Host) (tbl : MethodTable) (core : R3ASICore) (q ctx : JSValue) :
    (generateSupertintelligentConsultation host tbl core q ctx).console
      = [ConsoleLine.log generatingLine] := by
  simp only [generateSupertintelligentConsultation, bind, Run.andThen, consoleLog, Run.ofExcept]
  cases consultationPhases tbl q ctx <;> simp

/-- The outcome of `generateSupertintelligentConsultation`: the phases, then the result object. -/
theorem generate_outcome (host : Host) (tbl : MethodTable) (core : R3ASICore) (q ctx : JSValue) :
    (generateSupertintelligentConsultation host tbl core q ctx).outcome
      = consultationPhases tbl q ctx >>= consultationResult host tbl core := by
  simp only [generateSupertintelligentConsultation, bind, Run.andThen, consoleLog, Run.ofExcept]
  cases consultationPhases tbl q ctx <;> simp [Except.bind]

/-- When the `try` block completes, its response is the handler's response. -/
theorem post_of_try_ok (host : Host) (tbl : MethodTable) (core : R3ASICore)
    (rl : RateLimiterMemory) (now : Nat) (req : Request) (res : Response)
    (h : (consultationTry host tbl core now (consume rateLimiterOpts rl req.ip now).1 req).outcome
      = Except.ok res) :
    (postConsultation host tbl core rl now req).response = some res
    ∧ (postConsultation host tbl core rl now req).console
      = (consultationTry host tbl core now (consume rateLimiterOpts rl req.ip now).1 req).console := by
  simp [postConsultation, h]

/-- When the `try` block throws, the `catch` block answers and logs the thrown value. -/
theorem post_of_try_error (host : Host) (tbl : MethodTable) (core : R3ASICore)
    (rl : RateLimiterMemory) (now : Nat) (req : Request) (e : JSError)
    (h : (consultationTry host tbl core now (consume rateLimiterOpts rl req.ip now).1 req).outcome
      = Except.error e) :
    (postConsultation host tbl core rl now req).response
      = some { status := 500, body := fallbackBody }
    ∧ (postConsultation host tbl core rl now req).console
      = (consultationTry host tbl core now (consume rateLimiterOpts rl req.ip now).1 req).console
          ++ [ConsoleLine.error "ASI Consultation Error:" e] := by
  simp [postConsultation, h, consultationCatch, Except.toOption]

/-- The `try` block of an admitted request whose body can be destructured. -/
theorem try_admitted (host : Host) (tbl : MethodTable) (core : R3ASICore) (now : Nat)
    (req : Request) (q ctx : JSValue)
    (hq : getProp req.body "businessQuery" = Except.ok q)
    (hctx : getProp req.body "clientContext" = Except.ok ctx) :
    (consultationTry host tbl core now Admission.admitted req).console
        = [ConsoleLine.log "🌟 Processing Superintelligent Business Consultation Request",
           ConsoleLine.log generatingLine]
      ∧ (consultationTry host tbl core now Admission.admitted req).outcome
        = (generateSupertintelligentConsultation host tbl core q ctx).outcome.map
            (fun c => { status := 200, body := successBody c (host.toISOString now) }) := by
  obtain ⟨tier, htier⟩ := getProp_other_name req.body q "businessQuery" "consultationTier" hq
  have hc := generate_console host tbl core q ctx
  simp only [consultationTry, bind, Run.andThen, consoleLog, Run.ofExcept, awaitConsume, hq, hctx,
    htier, pure]
  cases hg : (generateSupertintelligentConsultation host tbl core q ctx).outcome <;>
    simp [hc, Except.map]

/-- With the methods of `server.js` alone every looked-up call throws. -/
theorem callMethod_source (name : String) (args : List JSValue) :
    callMethod sourceMethods name args
      = Except.error (JSError.typeError ("this." ++ name ++ " is not a function")) := rfl

/-- With the methods of `server.js` alone the phases never complete. -/
theorem consultationPhases_source_fails (q ctx : JSValue) :
    ∃ e, consultationPhases sourceMethods q ctx = Except.error e := by
  cases ctx <;>
    simp [consultationPhases, analyzeBusinessContext, getProp, callMethod_source, bind, Except.bind]

/-- With the methods of `server.js` alone the `try` block always throws. -/
theorem try_source_fails (host : Host) (core : R3ASICore) (now : Nat) (d : Admission)
    (req : Request) :
    ∃ e, (consultationTry host sourceMethods core now d req).outcome = Except.error e := by
  cases d with
  | rejected r =>
    exact ⟨JSError.rateLimiterRes r, by
      simp [consultationTry, awaitConsume, Run.ofExcept, bind, Run.andThen]⟩
  | admitted =>
    cases hq : getProp req.body "businessQuery" with
    | error e =>
      exact ⟨e, by simp [consultationTry, awaitConsume, Run.ofExcept, bind, Run.andThen, hq]⟩
    | ok q =>
      obtain ⟨ctx, hctx⟩ := getProp_other_name req.body q "businessQuery" "clientContext" hq
      obtain ⟨e, he⟩ := consultationPhases_source_fails q ctx
      refine ⟨e, ?_⟩
      rw [(try_admitted host sourceMethods core now req q ctx hq hctx).2, generate_outcome, he]
      rfl

/-- C2 (counterexample): the 101st request of a key inside its window is rejected
by the limiter, and the handler answers it with status 500 and the fallback body,
the very response it gives to an admitted request whose processing throws. -/
theorem rate_limited_answer_is_the_500_fallback :
    (consume rateLimiterOpts spentLimiter churnRequest.ip 1).1 = Admission.rejected 59
      ∧ (postConsultation sampleHost sourceMethods constructorFields spentLimiter 1
            churnRequest).response = some { status := 500, body := fallbackBody }
      ∧ (consume rateLimiterOpts RateLimiterMemory.empty churnRequest.ip 1).1 = Admission.admitted
      ∧ (postConsultation sampleHost sourceMethods constructorFields spentLimiter 1
            churnRequest).response
          = (postConsultation sampleHost sourceMethods constructorFields RateLimiterMemory.empty 1
              churnRequest).response := by
  refine ⟨by decide, by rfl, by decide, by rfl⟩

/-- C2 (as amended): a request that `rateLimiter.consume` rejects is answered by the
handler's single `catch` block, with status 500 and the fallback body, and the
rejection object is what gets logged. -/
theorem rate_limited_request_gets_fallback (host : Host) (tbl : MethodTable) (core : R3ASICore)
    (rl : RateLimiterMemory) (now : Nat) (req : Request) (r : Nat)
    (h : (consume rateLimiterOpts rl req.ip now).1 = Admission.rejected r) :
    (postConsultation host tbl core rl now req).response
        = some { status := 500, body := fallbackBody }
      ∧ (postConsultation host tbl core rl now req).console
        = [ConsoleLine.error "ASI Consultation Error:" (JSError.rateLimiterRes r)] :=
  ⟨(rejected_not_generating host tbl core rl now req r h).2,
   (rejected_not_generating host tbl core rl now req r h).1⟩

theorem rate_limited_request_gets_fallback_witness :
    (postConsultation sampleHost stubMethods constructorFields spentLimiter 1 churnRequest).response
        = some { status := 500, body := fallbackBody }
      ∧ (postConsultation sampleHost stubMethods constructorFields spentLimiter 1
          churnRequest).console
        = [ConsoleLine.error "ASI Consultation Error:" (JSError.rateLimiterRes 59)] :=
  rate_limited_request_gets_fallback sampleHost stubMethods constructorFields spentLimiter 1
    churnRequest 59 (by decide)

/-- C3 (counterexample): an admitted request whose body is the empty object (no
`businessQuery`, no `clientContext`) enters `generateSupertintelligentConsultation`
and is answered with status 500 and the fallback body. -/
theorem missing_fields_reach_the_consultation :
    (consume rateLimiterOpts RateLimiterMemory.empty emptyRequest.ip 0).1 = Admission.admitted
      ∧ (postConsultation sampleHost sourceMethods constructorFields RateLimiterMemory.empty 0
          emptyRequest).response = some { status := 500, body := fallbackBody }
      ∧ (postConsultation sampleHost sourceMethods constructorFields RateLimiterMemory.empty 0
          emptyRequest).console
        = [ConsoleLine.log "🌟 Processing Superintelligent Business Consultation Request",
           ConsoleLine.log generatingLine,
           ConsoleLine.error "ASI Consultation Error:"
             (JSError.typeError "Cannot read properties of undefined (reading industry)")] := by
  refine ⟨by decide, by rfl, by rfl⟩

/-- C3 (as amended): the handler validates nothing. For every admitted request with
a JSON object as body, whichever fields it carries, the handler enters
`generateSupertintelligentConsultation` with `businessQuery` and `clientContext` as
read from the body (`undefined` when absent) and answers with status 200 and the
success body when that returns, with status 500 and the fallback body when it
throws. -/
theorem admitted_request_is_never_validated (host : Host) (tbl : MethodTable) (core : R3ASICore)
    (rl : RateLimiterMemory) (now : Nat) (ip : String) (fields : List (String × JSValue))
    (hadm : (consume rateLimiterOpts rl ip now).1 = Admission.admitted) :
    ConsoleLine.log generatingLine ∈
        (postConsultation host tbl core rl now { ip := ip, body := JSValue.obj fields }).console
      ∧ (postConsultation host tbl core rl now { ip := ip, body := JSValue.obj fields }).response
        = (match (generateSupertintelligentConsultation host tbl core
              (lookupField "businessQuery" fields) (lookupField "clientContext" fields)).outcome with
           | Except.ok c => some { status := 200, body := successBody c (host.toISOString now) }
           | Except.error _ => some { status := 500, body := fallbackBody }) := by
  obtain ⟨hcon, hout⟩ := try_admitted host tbl core now { ip := ip, body := JSValue.obj fields }
    (lookupField "businessQuery" fields) (lookupField "clientContext" fields)
    (getProp_obj fields _) (getProp_obj fields _)
  cases hg : (generateSupertintelligentConsultation host tbl core
      (lookupField "businessQuery" fields) (lookupField "clientContext" fields)).outcome with
  | ok c =>
    rw [hg] at hout
    have h := post_of_try_ok host tbl core rl now { ip := ip, body := JSValue.obj fields }
      { status := 200, body := successBody c (host.toISOString now) } (by rw [hadm]; exact hout)
    rw [h.1, h.2, hadm, hcon]
    simp
  | error e =>
    rw [hg] at hout
    have h := post_of_try_error host tbl core rl now { ip := ip, body := JSValue.obj fields } e
      (by rw [hadm]; exact hout)
    rw [h.1, h.2, hadm, hcon]
    simp

theorem admitted_request_is_never_validated_witness :
    ConsoleLine.log generatingLine ∈
        (postConsultation sampleHost stubMethods constructorFields RateLimiterMemory.empty 0
          { ip := "10.0.0.1", body := JSValue.obj [] }).console
      ∧ (postConsultation sampleHost stubMethods constructorFields RateLimiterMemory.empty 0
          { ip := "10.0.0.1", body := JSValue.obj [] }).response
        = (match (generateSupertintelligentConsultation sampleHost stubMethods constructorFields
              (lookupField "businessQuery" []) (lookupField "clientContext" [])).outcome with
           | Except.ok c =>
               some { status := 200, body := successBody c (sampleHost.toISOString 0) }
           | Except.error _ => some { status := 500, body := fallbackBody }) :=
  admitted_request_is_never_validated sampleHost stubMethods constructorFields
    RateLimiterMemory.empty 0 "10.0.0.1" [] (by decide)

/-- C4 (the code at the claim's input): the example request, admitted by a fresh
limiter, is answered with status 500 and the fallback body, because
`analyzeBusinessContext` calls `this.analyzeIndustryWithSuperintelligence`, which
`server.js` never defines; and so is every other request, whatever its body. -/
theorem consultation_always_answers_500 :
    (consume rateLimiterOpts RateLimiterMemory.empty churnRequest.ip 0).1 = Admission.admitted
      ∧ (postConsultation sampleHost sourceMethods constructorFields RateLimiterMemory.empty 0
          churnRequest).console
        = [ConsoleLine.log "🌟 Processing Superintelligent Business Consultation Request",
           ConsoleLine.log generatingLine,
           ConsoleLine.error "ASI Consultation Error:"
             (JSError.typeError "this.analyzeIndustryWithSuperintelligence is not a function")]
      ∧ ∀ (host : Host) (core : R3ASICore) (rl : RateLimiterMemory) (now : Nat) (req : Request),
          (postConsultation host sourceMethods core rl now req).response
            = some { status := 500, body := fallbackBody } := by
  refine ⟨by decide, by rfl, ?_⟩
  intro host core rl now req
  obtain ⟨e, he⟩ := try_source_fails host core now (consume rateLimiterOpts rl req.ip now).1 req
  exact (post_of_try_error host sourceMethods core rl now req e he).1

/-- The product `750000000 * -1` is a double. -/
theorem negated_base_as_a_double : toDouble (750000000 * (-1)) = -750000000 := by
  rw [toDouble_of_floor _ 29 (-6291456000000000) (by norm_num)
    (by rw [abs_of_neg (by norm_num)]; norm_num) (by rw [abs_of_neg (by norm_num)]; norm_num)
    (by rw [Int.floor_eq_iff]; norm_num)]
  norm_num

/-- The product of `-750000000` and the amplifier rounds to -1170000000. -/
theorem negated_product_as_a_double : toDouble (-750000000 * (7025615418697974 / 2 ^ 52)) = -1170000000 := by
  rw [toDouble_of_floor _ 30 (-4907335680000001) (by norm_num)
    (by rw [abs_of_neg (by norm_num)]; norm_num) (by rw [abs_of_neg (by norm_num)]; norm_num)
    (by rw [Int.floor_eq_iff]; norm_num)]
  norm_num

/-- The product `750000000 * 2` is a double. -/
theorem doubled_base_as_a_double : toDouble (750000000 * 2) = 1500000000 := by
  rw [toDouble_of_floor _ 30 6291456000000000 (by norm_num)
    (by rw [abs_of_pos (by norm_num)]; norm_num) (by rw [abs_of_pos (by norm_num)]; norm_num)
    (by rw [Int.floor_eq_iff]; norm_num)]
  norm_num

/-- The product of `1500000000` and the amplifier rounds to 2340000000. -/
theorem doubled_product_as_a_double : toDouble (1500000000 * (7025615418697974 / 2 ^ 52)) = 2340000000 := by
  rw [toDouble_of_floor _ 31 4907335680000000 (by norm_num)
    (by rw [abs_of_pos (by norm_num)]; norm_num) (by rw [abs_of_pos (by norm_num)]; norm_num)
    (by rw [Int.floor_eq_iff]; norm_num)]
  norm_num

/-- On the core as constructed, `complexity: 2` gives the value 2,340,000,000. -/
theorem doubled_value (host : Host) :
    calculateConsultationValue host constructorFields
        (JSValue.obj [("complexity", JSValue.num 2)])
      = Except.ok (JSNumber.finite 2340000000) := by
  rw [calculate_on_fresh_core host (JSValue.obj [("complexity", JSValue.num 2)])
    (JSValue.num 2) 2 1500000000 2340000000
    rfl (by simp [complexityMultiplier, truthy, toNumber]) doubled_base_as_a_double
    (by rw [abs_of_pos (by norm_num)]; norm_num) doubled_product_as_a_double
    (by rw [abs_of_pos (by norm_num)]; norm_num)]
  have h := mathRound_intCast 2340000000
  simp only [Int.cast_ofNat] at h
  rw [h]
  simp

/-- C5 (counterexample): on the core as constructed, a consultation object with
`complexity: -1` gets the consultation value -1,170,000,000; and one with
`complexity: 1e300` gets `Infinity`, the first product overflowing. -/
theorem negative_complexity_gives_negative_value :
    calculateConsultationValue sampleHost constructorFields
        (JSValue.obj [("complexity", JSValue.num (-1))])
        = Except.ok (JSNumber.finite (-1170000000))
      ∧ ((-1170000000 : ℚ) < 0)
      ∧ calculateConsultationValue sampleHost constructorFields
          (JSValue.obj [("complexity", JSValue.num (10 ^ 300))])
        = Except.ok (JSNumber.infinity false) := by
  refine ⟨?_, by norm_num, ?_⟩
  · rw [calculate_on_fresh_core sampleHost (JSValue.obj [("complexity", JSValue.num (-1))])
      (JSValue.num (-1)) (-1) (-750000000) (-1170000000)
      rfl (by simp [complexityMultiplier, truthy, toNumber]) negated_base_as_a_double
      (by rw [abs_of_neg (by norm_num)]; norm_num) negated_product_as_a_double
      (by rw [abs_of_neg (by norm_num)]; norm_num)]
    have h := mathRound_intCast (-1170000000)
    simp only [Int.cast_neg, Int.cast_ofNat] at h
    rw [h]
    simp
  · have hm : toNumber sampleHost (complexityMultiplier (JSValue.num (10 ^ 300)))
        = JSNumber.finite (10 ^ 300) := by
      simp [complexityMultiplier, truthy, toNumber]
    have hover : JSNumber.mul (JSNumber.finite 750000000) (JSNumber.finite (10 ^ 300))
        = JSNumber.infinity false := ofExact_overflow _ (by norm_num)
    have hc : getProp (JSValue.obj [("complexity", JSValue.num (10 ^ 300))]) "complexity"
        = Except.ok (JSValue.num (10 ^ 300)) := rfl
    simp only [calculateConsultationValue, hc, hm, fresh_amplifier, bind, Except.bind, pure,
      Except.pure]
    rw [hover, mul_infinity_of_pos false _ (by norm_num)]
    rfl

/-- C5 (as amended): every result object built by `generateSupertintelligentConsultation`
carries `certaintyLevel` 97.3, which lies in [0,100], and as `consultationValue` the
result of `calculateConsultationValue`; that result is a non-negative integer
whenever `superintelligenceLevel` and the multiplier `consultation.complexity || 1`
are numbers between 0 and `10 ^ 100`; with every helper method present and
`complexity: 2` on the core as constructed the result is built, with value
2,340,000,000. -/
theorem result_certainty_and_value (host : Host) (tbl : MethodTable) (core : R3ASICore)
    (consultation : JSValue) :
    ((∃ e, consultationResult host tbl core consultation = Except.error e)
        ∨ ∃ r v, consultationResult host tbl core consultation = Except.ok r
            ∧ calculateConsultationValue host core consultation = Except.ok v
            ∧ getProp r "certaintyLevel" = Except.ok (JSValue.num (973 / 10))
            ∧ getProp r "consultationValue" = Except.ok (ofNumber v))
      ∧ ((0 : ℚ) ≤ 973 / 10 ∧ (973 / 10 : ℚ) ≤ 100)
      ∧ consultationResult sampleHost stubMethods constructorFields
          (JSValue.obj [("complexity", JSValue.num 2)])
        = Except.ok (JSValue.obj
            [("consultationValue", JSValue.num 2340000000),
             ("strategicInsights", JSValue.undefined),
             ("implementationPlan", JSValue.undefined),
             ("projectedROI", JSValue.undefined),
             ("certaintyLevel", JSValue.num (973 / 10)),
             ("superintelligenceSignature", JSValue.obj [])])
      ∧ ∀ (c : JSValue) (m : ℚ),
          getProp consultation "complexity" = Except.ok c →
          toNumber host (complexityMultiplier c) = JSNumber.finite m →
          0 ≤ m → m ≤ 10 ^ 100 →
          0 ≤ core.superintelligenceLevel → core.superintelligenceLevel ≤ 10 ^ 100 →
          ∃ n : ℕ, calculateConsultationValue host core consultation
            = Except.ok (JSNumber.finite (n : ℚ)) := by
  refine ⟨?_, ⟨by norm_num, by norm_num⟩, ?_, ?_⟩
  · cases hv : calculateConsultationValue host core consultation with
    | error e => exact Or.inl ⟨e, by simp [consultationResult, hv, bind, Except.bind]⟩
    | ok v =>
      cases hi : getProp consultation "insights" with
      | error e => exact Or.inl ⟨e, by simp [consultationResult, hv, hi, bind, Except.bind]⟩
      | ok i =>
        cases hrd : getProp consultation "roadmap" with
        | error e =>
          exact Or.inl ⟨e, by simp [consultationResult, hv, hi, hrd, bind, Except.bind]⟩
        | ok rd =>
          cases hroi : getProp consultation "roi" with
          | error e =>
            exact Or.inl ⟨e, by simp [consultationResult, hv, hi, hrd, hroi, bind, Except.bind]⟩
          | ok roi =>
            cases hs : callMethod tbl "generateASISignature" [] with
            | error e =>
              exact Or.inl ⟨e, by
                simp [consultationResult, hv, hi, hrd, hroi, hs, bind, Except.bind]⟩
            | ok sg =>
              refine Or.inr ⟨JSValue.obj
                [("consultationValue", ofNumber v), ("strategicInsights", i),
                 ("implementationPlan", rd), ("projectedROI", roi),
                 ("certaintyLevel", JSValue.num (973 / 10)),
                 ("superintelligenceSignature", sg)], v, by
                simp only [consultationResult, hv, hi, hrd, hroi, hs, bind, Except.bind, pure,
                  Except.pure], rfl, ?_, ?_⟩
              · simp [getProp, lookupField]
              · simp [getProp, lookupField]
  · have hv := doubled_value sampleHost
    simp only [consultationResult, hv, bind, Except.bind, pure, Except.pure]
    rfl
  · intro c m hc hm hm0 hm1 hl0 hl1
    obtain ⟨ha, ha0, ha1⟩ := ofExact_of_le_two_pow (core.superintelligenceLevel / 100) 333
      (by norm_num) (by positivity)
      (le_trans (div_le_div_of_nonneg_right hl1 (by norm_num)) (by norm_num))
    obtain ⟨hp, hp0, hp1⟩ := ofExact_of_le_two_pow (750000000 * m) 363 (by norm_num)
      (by positivity)
      (le_trans (mul_le_mul_of_nonneg_left hm1 (by norm_num)) (by norm_num))
    obtain ⟨hq, hq0, _⟩ := ofExact_of_le_two_pow
      (toDouble (750000000 * m) * toDouble (core.superintelligenceLevel / 100)) 696 (by norm_num)
      (mul_nonneg hp0 ha0)
      (by
        calc toDouble (750000000 * m) * toDouble (core.superintelligenceLevel / 100)
            ≤ 2 ^ 363 * 2 ^ 333 := mul_le_mul hp1 ha1 ha0 (by positivity)
          _ = 2 ^ 696 := by rw [← pow_add])
    have hr := mathRound_nonneg _ hq0
    refine ⟨(mathRound (toDouble (toDouble (750000000 * m)
      * toDouble (core.superintelligenceLevel / 100)))).toNat, ?_⟩
    simp only [calculateConsultationValue, hc, hm, ha, bind, Except.bind, pure, Except.pure,
      JSNumber.mul, hp, hq, JSNumber.round]
    congr 2
    have : ((mathRound (toDouble (toDouble (750000000 * m)
        * toDouble (core.superintelligenceLevel / 100)))).toNat : ℤ)
        = mathRound (toDouble (toDouble (750000000 * m)
            * toDouble (core.superintelligenceLevel / 100))) := Int.toNat_of_nonneg hr
    exact_mod_cast this.symm

theorem result_certainty_and_value_witness :
    ((∃ e, consultationResult sampleHost stubMethods constructorFields
            (JSValue.obj [("complexity", JSValue.num 2)]) = Except.error e)
        ∨ ∃ r v, consultationResult sampleHost stubMethods constructorFields
              (JSValue.obj [("complexity", JSValue.num 2)]) = Except.ok r
            ∧ calculateConsultationValue sampleHost constructorFields
                (JSValue.obj [("complexity", JSValue.num 2)]) = Except.ok v
            ∧ getProp r "certaintyLevel" = Except.ok (JSValue.num (973 / 10))
            ∧ getProp r "consultationValue" = Except.ok (ofNumber v))
      ∧ ((0 : ℚ) ≤ 973 / 10 ∧ (973 / 10 : ℚ) ≤ 100)
      ∧ consultationResult sampleHost stubMethods constructorFields
          (JSValue.obj [("complexity", JSValue.num 2)])
        = Except.ok (JSValue.obj
            [("consultationValue", JSValue.num 2340000000),
             ("strategicInsights", JSValue.undefined),
             ("implementationPlan", JSValue.undefined),
             ("projectedROI", JSValue.undefined),
             ("certaintyLevel", JSValue.num (973 / 10)),
             ("superintelligenceSignature", JSValue.obj [])])
      ∧ ∃ n : ℕ, calculateConsultationValue sampleHost constructorFields
            (JSValue.obj [("complexity", JSValue.num 2)])
          = Except.ok (JSNumber.finite (n : ℚ)) :=
  ⟨(result_certainty_and_value sampleHost stubMethods constructorFields
      (JSValue.obj [("complexity", JSValue.num 2)])).1,
   (result_certainty_and_value sampleHost stubMethods constructorFields
      (JSValue.obj [("complexity", JSValue.num 2)])).2.1,
   (result_certainty_and_value sampleHost stubMethods constructorFields
      (JSValue.obj [("complexity", JSValue.num 2)])).2.2.1,
   (result_certainty_and_value sampleHost stubMethods constructorFields
      (JSValue.obj [("complexity", JSValue.num 2)])).2.2.2 (JSValue.num 2) 2 rfl
      (by simp [complexityMultiplier, truthy, toNumber]) (by norm_num) (by norm_num)
      (by norm_num [constructorFields]) (by norm_num [constructorFields])⟩

/-- C6: whatever is thrown inside the `try` block of `POST /api/v1/consultation`,
the handler still answers, with status 500 and exactly the fallback body; the
`catch` block sends the same response for any two thrown values, so nothing of
the fault shows in the response. -/
theorem consultation_fault_gives_fixed_500 (host : Host) (tbl : MethodTable) (core : R3ASICore)
    (rl : RateLimiterMemory) (now : Nat) (req : Request) (e : JSError)
    (h : (consultationTry host tbl core now (consume rateLimiterOpts rl req.ip now).1 req).outcome
      = Except.error e) :
    (postConsultation host tbl core rl now req).response
        = some { status := 500, body := fallbackBody }
      ∧ ∀ e2 : JSError, (consultationCatch e2).outcome = (consultationCatch e).outcome := by
  refine ⟨(post_of_try_error host tbl core rl now req e h).1, ?_⟩
  intro e2
  rfl

theorem consultation_fault_gives_fixed_500_witness :
    (postConsultation sampleHost sourceMethods constructorFields RateLimiterMemory.empty 0
        churnRequest).response = some { status := 500, body := fallbackBody }
      ∧ ∀ e2 : JSError, (consultationCatch e2).outcome
          = (consultationCatch
              (JSError.typeError "this.analyzeIndustryWithSuperintelligence is not a function")).outcome :=
  consultation_fault_gives_fixed_500 sampleHost sourceMethods constructorFields
    RateLimiterMemory.empty 0 churnRequest
    (JSError.typeError "this.analyzeIndustryWithSuperintelligence is not a function") (by rfl)

/-- An object without the field `name` reads as `undefined` there. -/
theorem lookupField_filter_ne (name : String) (fields : List (String × JSValue)) :
    lookupField name (fields.filter (fun p => decide (p.1 ≠ name))) = JSValue.undefined := by
  induction fields with
  | nil => rfl
  | cons p rest ih =>
    by_cases h : p.1 = name
    · simp [List.filter_cons, h]
      simpa using ih
    · simp [List.filter_cons, h, lookupField]
      simpa using ih

/-- The product `1/2 * 100000000` is a double. -/
theorem half_draw_product_as_a_double : toDouble (1 / 2 * 100000000) = 50000000 := by
  rw [toDouble_of_floor _ 25 6710886400000000 (by norm_num)
    (by rw [abs_of_pos (by norm_num)]; norm_num) (by rw [abs_of_pos (by norm_num)]; norm_num)
    (by rw [Int.floor_eq_iff]; norm_num)]
  norm_num

/-- The sum `50000000 + 50000000` is a double. -/
theorem half_draw_sum_as_a_double : toDouble (50000000 + 50000000) = 100000000 := by
  rw [toDouble_of_floor _ 26 6710886400000000 (by norm_num)
    (by rw [abs_of_pos (by norm_num)]; norm_num) (by rw [abs_of_pos (by norm_num)]; norm_num)
    (by rw [Int.floor_eq_iff]; norm_num)]
  norm_num

/-- When `generateRealTimeAnalysis` returns, its `estimatedValue` is the floor of the
rounded sum of line 1181. -/
theorem generateRealTimeAnalysis_estimatedValue (tbl : MethodTable) (random : ℚ)
    (businessData a : JSValue)
    (ha : generateRealTimeAnalysis tbl random businessData = Except.ok a) :
    getProp a "estimatedValue"
      = Except.ok (JSValue.num
          (mathFloor (toDouble (toDouble (random * 100000000) + 50000000)))) := by
  simp only [generateRealTimeAnalysis, bind, Except.bind] at ha
  cases h1 : callMethod tbl "identifyMarketOpportunities" [businessData] with
  | error e => simp [h1] at ha
  | ok v1 =>
    cases h2 : callMethod tbl "analyzeCompetitors" [businessData] with
    | error e => simp [h1, h2] at ha
    | ok v2 =>
      cases h3 : callMethod tbl "optimizeOperations" [businessData] with
      | error e => simp [h1, h2, h3] at ha
      | ok v3 =>
        cases h4 : callMethod tbl "projectFinancials" [businessData] with
        | error e => simp [h1, h2, h3, h4] at ha
        | ok v4 =>
          simp only [h1, h2, h3, h4, pure, Except.pure, Except.ok.injEq] at ha
          subst ha
          simp [getProp, lookupField]

/-- What the handler emits when the analysis was produced. -/
theorem deliver_of_analysis (host : Host) (tbl : MethodTable) (random : ℚ)
    (businessData a : JSValue)
    (ha : generateRealTimeAnalysis tbl random businessData = Except.ok a) :
    deliverAnalysis host (Except.ok a)
      = [{ event := "superintelligentInsights"
           payload := JSValue.obj
             [("analysis", a),
              ("confidenceLevel", JSValue.num (973 / 10)),
              ("processingTime", JSValue.str "0.003 seconds"),
              ("valueGenerated", JSValue.str ("$" ++ host.toLocaleString (JSValue.num
                (mathFloor (toDouble (toDouble (random * 100000000) + 50000000))))))] }] := by
  have he := generateRealTimeAnalysis_estimatedValue tbl random businessData a ha
  simp [deliverAnalysis, insightsPayload, estimatedValueText, he, bind, Except.bind, pure,
    Except.pure]

/-- C7: a `requestSuperintelligentAnalysis` message received on a socket makes the
handler emit exactly one message, on that same socket and on no other, and the
handler itself always completes. When `data.businessData` can be read and
`generateRealTimeAnalysis` returns `a`, the message is `superintelligentInsights`
with `analysis: a`, `confidenceLevel`, `processingTime` and `valueGenerated`, the
formatted `estimatedValue`; when reading `data` throws (`null`, `undefined`) or
`generateRealTimeAnalysis` throws, it is `asiError` with the fixed `error` and
`recommendation`. An analysis without `estimatedValue` handed to the same
`try`/`catch` also ends in `asiError`, and with the four helper methods present the
insights are in fact emitted. -/
theorem analysis_request_emits_exactly_one_message (host : Host) (tbl : MethodTable) (s : Server)
    (socketId : String) (random : ℚ) (data : JSValue) :
    (∃ m : Emit,
        (Server.handle host tbl s
            (ServerEvent.requestSuperintelligentAnalysis socketId random data)).1.sockets socketId
          = s.sockets socketId ++ [m]
        ∧ ((∃ businessData a, getProp data "businessData" = Except.ok businessData
              ∧ generateRealTimeAnalysis tbl random businessData = Except.ok a
              ∧ m = { event := "superintelligentInsights"
                      payload := JSValue.obj
                        [("analysis", a),
                         ("confidenceLevel", JSValue.num (973 / 10)),
                         ("processingTime", JSValue.str "0.003 seconds"),
                         ("valueGenerated", JSValue.str ("$" ++ host.toLocaleString (JSValue.num
                           (mathFloor
                             (toDouble (toDouble (random * 100000000) + 50000000))))))] })
          ∨ (m = { event := "asiError"
                   payload := JSValue.obj
                     [("error", JSValue.str "Superintelligent processing temporarily limited"),
                      ("recommendation",
                        JSValue.str "Upgrade to Enterprise ASI for unlimited access")] }
              ∧ ((∃ e, getProp data "businessData" = Except.error e)
                ∨ ∃ businessData e, getProp data "businessData" = Except.ok businessData
                    ∧ generateRealTimeAnalysis tbl random businessData = Except.error e))))
      ∧ (∀ other : String, other = socketId
          ∨ (Server.handle host tbl s
              (ServerEvent.requestSuperintelligentAnalysis socketId random data)).1.sockets other
            = s.sockets other)
      ∧ (Server.handle host tbl s
            (ServerEvent.requestSuperintelligentAnalysis socketId random data)).2 = none
      ∧ (∃ e, getProp JSValue.undefined "businessData" = Except.error e)
      ∧ (∃ e, getProp JSValue.null "businessData" = Except.error e)
      ∧ (∀ fields : List (String × JSValue),
          deliverAnalysis host (Except.ok
              (JSValue.obj (fields.filter (fun p => decide (p.1 ≠ "estimatedValue")))))
            = [{ event := "asiError", payload := asiErrorPayload }])
      ∧ (Server.handle sampleHost stubMethods sampleServer
            (ServerEvent.requestSuperintelligentAnalysis "socket-1" (1 / 2)
              (JSValue.obj [("businessData", JSValue.str "q3")]))).1.sockets "socket-1"
          = [{ event := "superintelligentInsights"
               payload := JSValue.obj
                 [("analysis", JSValue.obj
                    [("marketOpportunities", JSValue.obj []),
                     ("competitiveLandscape", JSValue.obj []),
                     ("operationalOptimization", JSValue.obj []),
                     ("financialProjections", JSValue.obj []),
                     ("estimatedValue", JSValue.num 100000000)]),
                  ("confidenceLevel", JSValue.num (973 / 10)),
                  ("processingTime", JSValue.str "0.003 seconds"),
                  ("valueGenerated", JSValue.str "$0")] }] := by
  have hsock : (Server.handle host tbl s
      (ServerEvent.requestSuperintelligentAnalysis socketId random data)).1.sockets socketId
      = s.sockets socketId ++ deliverAnalysis host (awaitedAnalysis tbl random data) := by
    simp [Server.handle, emitOn, onRequestSuperintelligentAnalysis]
  refine ⟨?_, ?_, rfl, ⟨_, rfl⟩, ⟨_, rfl⟩, ?_, ?_⟩
  · rw [hsock]
    cases hb : getProp data "businessData" with
    | error e =>
      refine ⟨{ event := "asiError", payload := asiErrorPayload }, ?_,
        Or.inr ⟨rfl, Or.inl ⟨e, rfl⟩⟩⟩
      simp [awaitedAnalysis, hb, deliverAnalysis, bind, Except.bind]
    | ok businessData =>
      cases hg : generateRealTimeAnalysis tbl random businessData with
      | error e =>
        refine ⟨{ event := "asiError", payload := asiErrorPayload }, ?_,
          Or.inr ⟨rfl, Or.inr ⟨businessData, e, rfl, hg⟩⟩⟩
        simp [awaitedAnalysis, hb, hg, deliverAnalysis, bind, Except.bind]
      | ok a =>
        refine ⟨_, ?_, Or.inl ⟨businessData, a, rfl, hg, rfl⟩⟩
        have hd := deliver_of_analysis host tbl random businessData a hg
        have haw : awaitedAnalysis tbl random data = Except.ok a := by
          simp [awaitedAnalysis, hb, hg, bind, Except.bind]
        rw [haw, hd]
  · intro other
    by_cases h : other = socketId
    · exact Or.inl h
    · right
      simp [Server.handle, emitOn, Function.update, h]
  · intro fields
    have ht : estimatedValueText host
        (JSValue.obj (fields.filter (fun p => decide (p.1 ≠ "estimatedValue"))))
        = Except.error
            (JSError.typeError "Cannot read properties of undefined (reading toLocaleString)") := by
      simp only [estimatedValueText, getProp_obj, lookupField_filter_ne, bind, Except.bind]
    simp only [deliverAnalysis, insightsPayload, bind, Except.bind, ht]
  · have hg : generateRealTimeAnalysis stubMethods (1 / 2) (JSValue.str "q3")
        = Except.ok (JSValue.obj
            [("marketOpportunities", JSValue.obj []),
             ("competitiveLandscape", JSValue.obj []),
             ("operationalOptimization", JSValue.obj []),
             ("financialProjections", JSValue.obj []),
             ("estimatedValue", JSValue.num 100000000)]) := by
      have hv : ((mathFloor (toDouble (toDouble (1 / 2 * 100000000) + 50000000)) : ℤ) : ℚ)
          = 100000000 := by
        rw [half_draw_product_as_a_double, half_draw_sum_as_a_double]
        simp [mathFloor]
      rw [← hv]
      rfl
    have hd := deliver_of_analysis sampleHost stubMethods (1 / 2) (JSValue.str "q3") _ hg
    have haw : awaitedAnalysis stubMethods (1 / 2) (JSValue.obj [("businessData", JSValue.str "q3")])
        = Except.ok (JSValue.obj
            [("marketOpportunities", JSValue.obj []),
             ("competitiveLandscape", JSValue.obj []),
             ("operationalOptimization", JSValue.obj []),
             ("financialProjections", JSValue.obj []),
             ("estimatedValue", JSValue.num 100000000)]) := by
      simp only [awaitedAnalysis, getProp_obj, lookupField, bind, Except.bind]
      simpa using hg
    have hs : (Server.handle sampleHost stubMethods sampleServer
        (ServerEvent.requestSuperintelligentAnalysis "socket-1" (1 / 2)
          (JSValue.obj [("businessData", JSValue.str "q3")]))).1.sockets "socket-1"
        = sampleServer.sockets "socket-1" ++ deliverAnalysis sampleHost
            (awaitedAnalysis stubMethods (1 / 2)
              (JSValue.obj [("businessData", JSValue.str "q3")])) := by
      simp [Server.handle, emitOn, onRequestSuperintelligentAnalysis]
    rw [hs, haw, hd]
    rfl

/-- C10: when the limiter admits the request and
`generateSupertintelligentConsultation`, called with the body's `businessQuery` and
`clientContext`, returns `c`, the response has status 200 and the body
`success: true, consultation: c, timestamp, asiSignature: 'R³-ASI-ENTERPRISE-v1.0',
patentProtected: true`, with `c` as returned. -/
theorem consultation_success_body (host : Host) (tbl : MethodTable) (core : R3ASICore)
    (rl : RateLimiterMemory) (now : Nat) (req : Request) (q ctx c : JSValue)
    (hadm : (consume rateLimiterOpts rl req.ip now).1 = Admission.admitted)
    (hq : getProp req.body "businessQuery" = Except.ok q)
    (hctx : getProp req.body "clientContext" = Except.ok ctx)
    (hgen : (generateSupertintelligentConsultation host tbl core q ctx).outcome = Except.ok c) :
    (postConsultation host tbl core rl now req).response
        = some { status := 200
                 body := JSValue.obj
                   [("success", JSValue.bool true),
                    ("consultation", c),
                    ("timestamp", JSValue.str (host.toISOString now)),
                    ("asiSignature", JSValue.str "R³-ASI-ENTERPRISE-v1.0"),
                    ("patentProtected", JSValue.bool true)] } := by
  have hout := (try_admitted host tbl core now req q ctx hq hctx).2
  rw [hgen] at hout
  exact (post_of_try_ok host tbl core rl now req _ (by rw [hadm]; exact hout)).1

theorem consultation_success_body_witness :
    (postConsultation sampleHost stubMethods constructorFields RateLimiterMemory.empty 0
        churnRequest).response
        = some { status := 200
                 body := JSValue.obj
                   [("success", JSValue.bool true),
                    ("consultation", JSValue.obj
                      [("consultationValue", JSValue.num 1170000000),
                       ("strategicInsights", JSValue.undefined),
                       ("implementationPlan", JSValue.undefined),
                       ("projectedROI", JSValue.undefined),
                       ("certaintyLevel", JSValue.num (973 / 10)),
                       ("superintelligenceSignature", JSValue.obj [])]),
                    ("timestamp", JSValue.str (sampleHost.toISOString 0)),
                    ("asiSignature", JSValue.str "R³-ASI-ENTERPRISE-v1.0"),
                    ("patentProtected", JSValue.bool true)] } :=
  consultation_success_body sampleHost stubMethods constructorFields RateLimiterMemory.empty 0
    churnRequest (JSValue.str "reduce churn")
    (JSValue.obj [("industry", JSValue.str "retail"), ("companySize", JSValue.str "mid")])
    _ (by decide) (by rfl) (by rfl)
    (by
      rw [generate_outcome]
      have hphases : consultationPhases stubMethods (JSValue.str "reduce churn")
          (JSValue.obj [("industry", JSValue.str "retail"), ("companySize", JSValue.str "mid")])
          = Except.ok (JSValue.obj []) := rfl
      rw [hphases]
      simp only [bind, Except.bind, consultationResult, fresh_value sampleHost]
      rfl)

/-! ## Status, algorithm generation, and the server as a whole -/

/-- C11: `GET /api/v1/asi-status` always answers, with the six metrics equal to the
current fields of the core, `status` `TRANSCENDENT_OPERATIONAL` and
`patentProtection` `FORTRESS_LEVEL_ACTIVE`; the answer is the same for any two
requests, and the server state, the core included, is left as it was. -/
theorem asi_status_reports_core (host : Host) (tbl : MethodTable) (s : Server)
    (req req2 : Request) :
    (Server.handle host tbl s (ServerEvent.asiStatus req)).2
        = some { status := 200
                 body := JSValue.obj
                   [("superintelligenceLevel", JSValue.num s.core.superintelligenceLevel),
                    ("consciousnessDepth", JSValue.num s.core.consciousnessDepth),
                    ("omniscienceFactor", JSValue.num s.core.omniscienceFactor),
                    ("realityManipulationPower", JSValue.num s.core.realityManipulationPower),
                    ("businessOptimizationMultiplier",
                      JSValue.num s.core.businessOptimizationMultiplier),
                    ("quantumProcessors", JSValue.num s.core.quantumProcessors),
                    ("status", JSValue.str "TRANSCENDENT_OPERATIONAL"),
                    ("patentProtection", JSValue.str "FORTRESS_LEVEL_ACTIVE")] }
      ∧ (Server.handle host tbl s (ServerEvent.asiStatus req)).2
          = (Server.handle host tbl s (ServerEvent.asiStatus req2)).2
      ∧ (Server.handle host tbl s (ServerEvent.asiStatus req)).1 = s :=
  ⟨rfl, rfl, rfl⟩

/-- The algorithm handler answers 200 with the success body when the `try` block's
generation returns. -/
theorem algorithm_of_ok (tbl : MethodTable) (req : Request) (a : JSValue)
    (h : (generatedAlgorithm tbl req).outcome = Except.ok a) :
    (postAlgorithmGeneration tbl req).response
      = some { status := 200, body := algorithmBody a } := by
  simp [postAlgorithmGeneration, algorithmTry, bind, Run.andThen, h, pure]

/-- The algorithm handler answers 500 with the licensing body when the `try` block throws. -/
theorem algorithm_of_error (tbl : MethodTable) (req : Request) (e : JSError)
    (h : (generatedAlgorithm tbl req).outcome = Except.error e) :
    (postAlgorithmGeneration tbl req).response
      = some { status := 500, body := licensingBody } := by
  simp [postAlgorithmGeneration, algorithmTry, bind, Run.andThen, h, algorithmCatch,
    Except.toOption]

/-- C12: `POST /api/v1/algorithm-generation` always answers. When the generation
(destructuring of the body, then `generateAlgorithmFromProblem`) returns `a`, the
response is status 200 with `success: true, algorithm: a, patentNotice,
licenseRequired: true, contactInfo: 'licensing@r3-asi-enterprise.com'`; when it
throws, the response is status 500 with exactly `success: false, error: 'Algorithm
generation requires proper licensing'`. For a JSON object as body the generation
is `generateAlgorithmFromProblem` on the three fields as read. -/
theorem algorithm_generation_answers (tbl : MethodTable) (req : Request) :
    ((∃ a, (generatedAlgorithm tbl req).outcome = Except.ok a
          ∧ (postAlgorithmGeneration tbl req).response
            = some { status := 200
                     body := JSValue.obj
                       [("success", JSValue.bool true),
                        ("algorithm", a),
                        ("patentNotice", JSValue.str
                          "Generated using Patent-Protected AI Algorithm Generation Technology"),
                        ("licenseRequired", JSValue.bool true),
                        ("contactInfo", JSValue.str "licensing@r3-asi-enterprise.com")] })
        ∨ (∃ e, (generatedAlgorithm tbl req).outcome = Except.error e
          ∧ (postAlgorithmGeneration tbl req).response
            = some { status := 500
                     body := JSValue.obj
                       [("success", JSValue.bool false),
                        ("error", JSValue.str
                          "Algorithm generation requires proper licensing")] }))
      ∧ ∀ (ip : String) (fields : List (String × JSValue)),
          (generatedAlgorithm tbl { ip := ip, body := JSValue.obj fields }).outcome
            = (generateAlgorithmFromProblem tbl (lookupField "problemDescription" fields)
                (lookupField "domainType" fields) (lookupField "complexityLevel" fields)).outcome := by
  constructor
  · cases h : (generatedAlgorithm tbl req).outcome with
    | ok a => exact Or.inl ⟨a, rfl, algorithm_of_ok tbl req a h⟩
    | error e => exact Or.inr ⟨e, rfl, algorithm_of_error tbl req e h⟩
  · intro ip fields
    simp [generatedAlgorithm, getProp_obj, Run.ofExcept, bind, Run.andThen]

/-- No message emitted by the analysis handler is an `asiWelcome`. -/
theorem deliverAnalysis_not_welcome (host : Host) (analysis : Except JSError JSValue) :
    ∀ m ∈ deliverAnalysis host analysis, m.event ≠ "asiWelcome" := by
  intro m hm
  unfold deliverAnalysis at hm
  split at hm <;> simp at hm <;> subst hm <;> simp

/-- Handling an event other than the connection of `socketId` keeps a welcome at the
head of that socket's messages and adds no second one. -/
theorem handle_keeps_welcome (host : Host) (tbl : MethodTable) (socketId : String) (w : Emit)
    (s : Server) (e : ServerEvent) (he : e ≠ ServerEvent.connection socketId)
    (h : ∃ rest, s.sockets socketId = w :: rest ∧ ∀ m ∈ rest, m.event ≠ "asiWelcome") :
    ∃ rest, (Server.handle host tbl s e).1.sockets socketId = w :: rest
      ∧ ∀ m ∈ rest, m.event ≠ "asiWelcome" := by
  obtain ⟨rest, hrest, hne⟩ := h
  cases e with
  | consultation now req => exact ⟨rest, hrest, hne⟩
  | asiStatus req => exact ⟨rest, hrest, hne⟩
  | algorithmGeneration req => exact ⟨rest, hrest, hne⟩
  | disconnect id => exact ⟨rest, hrest, hne⟩
  | connection id =>
    have hid : socketId ≠ id := by
      intro h; apply he; rw [h]
    refine ⟨rest, ?_, hne⟩
    simp [Server.handle, emitOn, Function.update, hid, hrest]
  | requestSuperintelligentAnalysis id random data =>
    by_cases hid : socketId = id
    · subst hid
      refine ⟨rest ++ onRequestSuperintelligentAnalysis host tbl random data, ?_, ?_⟩
      · simp [Server.handle, emitOn, Function.update, hrest]
      · intro m hm
        rcases List.mem_append.mp hm with h1 | h2
        · exact hne m h1
        · exact deliverAnalysis_not_welcome host _ m h2
    · refine ⟨rest, ?_, hne⟩
      simp [Server.handle, emitOn, Function.update, hid, hrest]

/-- The same over a sequence of events. -/
theorem handleAll_keeps_welcome (host : Host) (tbl : MethodTable) (socketId : String) (w : Emit) :
    ∀ (evs : List ServerEvent) (s : Server),
      (∀ e ∈ evs, e ≠ ServerEvent.connection socketId) →
      (∃ rest, s.sockets socketId = w :: rest ∧ ∀ m ∈ rest, m.event ≠ "asiWelcome") →
      ∃ rest, (Server.handleAll host tbl s evs).sockets socketId = w :: rest
        ∧ ∀ m ∈ rest, m.event ≠ "asiWelcome" := by
  intro evs
  induction evs with
  | nil => intro s _ h; exact h
  | cons e rest ih =>
    intro s hevs h
    exact ih _ (fun e2 he2 => hevs e2 (List.mem_cons_of_mem _ he2))
      (handle_keeps_welcome host tbl socketId w s e (hevs e (List.mem_cons_self _ _)) h)

/-- C13: a new connection makes the server emit `asiWelcome` on the connecting
socket, with the fixed `message` and `capabilityStatus` and the core's current
`superintelligenceLevel`; it is the first message on that socket, ahead of
everything the handling of later events emits there, and none of those later
messages is another `asiWelcome`. -/
theorem connection_emits_one_welcome (host : Host) (tbl : MethodTable) (s : Server)
    (socketId : String) (evs : List ServerEvent)
    (hnew : s.sockets socketId = [])
    (hevs : ∀ e ∈ evs, e ≠ ServerEvent.connection socketId) :
    ∃ rest,
      (Server.handleAll host tbl
          (Server.handle host tbl s (ServerEvent.connection socketId)).1 evs).sockets socketId
        = { event := "asiWelcome"
            payload := JSValue.obj
              [("message", JSValue.str "Welcome to R³ ASI Enterprise Platform"),
               ("superintelligenceLevel", JSValue.num s.core.superintelligenceLevel),
               ("capabilityStatus", JSValue.str "ASTRONOMICAL_BUSINESS_INTELLIGENCE_ACTIVE")] }
          :: rest
      ∧ ∀ m ∈ rest, m.event ≠ "asiWelcome" := by
  apply handleAll_keeps_welcome host tbl socketId _ evs _ hevs
  refine ⟨[], ?_, by simp⟩
  simp [Server.handle, emitOn, hnew, asiWelcome]

theorem connection_emits_one_welcome_witness :
    ∃ rest,
      (Server.handleAll sampleHost sourceMethods
          (Server.handle sampleHost sourceMethods sampleServer
            (ServerEvent.connection "socket-1")).1
          [ServerEvent.requestSuperintelligentAnalysis "socket-1" (1 / 2) JSValue.null,
           ServerEvent.connection "socket-2",
           ServerEvent.disconnect "socket-1"]).sockets "socket-1"
        = { event := "asiWelcome"
            payload := JSValue.obj
              [("message", JSValue.str "Welcome to R³ ASI Enterprise Platform"),
               ("superintelligenceLevel", JSValue.num sampleServer.core.superintelligenceLevel),
               ("capabilityStatus", JSValue.str "ASTRONOMICAL_BUSINESS_INTELLIGENCE_ACTIVE")] }
          :: rest
      ∧ ∀ m ∈ rest, m.event ≠ "asiWelcome" :=
  connection_emits_one_welcome sampleHost sourceMethods sampleServer "socket-1"
    [ServerEvent.requestSuperintelligentAnalysis "socket-1" (1 / 2) JSValue.null,
     ServerEvent.connection "socket-2",
     ServerEvent.disconnect "socket-1"]
    (by rfl) (by simp)

/-- C14: handling a `POST /api/v1/consultation` request leaves the messages of every
socket as they were; handling a `requestSuperintelligentAnalysis` message leaves
the limiter as it was, and what it emits is the same whatever state the limiter
is in. -/
theorem http_and_channel_are_decoupled (host : Host) (tbl : MethodTable) (s : Server)
    (now : Nat) (req : Request) (socketId : String) (random : ℚ) (data : JSValue)
    (rl : RateLimiterMemory) :
    (Server.handle host tbl s (ServerEvent.consultation now req)).1.sockets = s.sockets
      ∧ (Server.handle host tbl s
            (ServerEvent.requestSuperintelligentAnalysis socketId random data)).1.limiter
          = s.limiter
      ∧ (Server.handle host tbl { s with limiter := rl }
            (ServerEvent.requestSuperintelligentAnalysis socketId random data)).1.sockets
          = (Server.handle host tbl s
              (ServerEvent.requestSuperintelligentAnalysis socketId random data)).1.sockets
      ∧ (Server.handle host tbl s
            (ServerEvent.requestSuperintelligentAnalysis socketId random data)).1.sockets socketId
          = s.sockets socketId ++ onRequestSuperintelligentAnalysis host tbl random data :=
  ⟨rfl, rfl, rfl, by simp [Server.handle, emitOn]⟩

/-- No handler assigns a field of the core. -/
theorem handle_core (host : Host) (tbl : MethodTable) (s : Server) (e : ServerEvent) :
    (Server.handle host tbl s e).1.core = s.core := by
  cases e <;> rfl

/-- The core is the same after any sequence of events. -/
theorem handleAll_core (host : Host) (tbl : MethodTable) :
    ∀ (evs : List ServerEvent) (s : Server), (Server.handleAll host tbl s evs).core = s.core := by
  intro evs
  induction evs with
  | nil => intro s; rfl
  | cons e rest ih =>
    intro s
    simp only [Server.handleAll]
    rw [ih, handle_core]

/-- The response to a consultation request depends on the limiter only through
whether the request is admitted. -/
theorem response_of_decision (host : Host) (tbl : MethodTable) (core : R3ASICore)
    (rl1 rl2 : RateLimiterMemory) (now : Nat) (req : Request)
    (h : (consume rateLimiterOpts rl1 req.ip now).1.isAdmitted
      = (consume rateLimiterOpts rl2 req.ip now).1.isAdmitted) :
    (postConsultation host tbl core rl1 now req).response
      = (postConsultation host tbl core rl2 now req).response := by
  cases h1 : (consume rateLimiterOpts rl1 req.ip now).1 with
  | admitted =>
    cases h2 : (consume rateLimiterOpts rl2 req.ip now).1 with
    | admitted =>
      simp only [postConsultation, h1, h2]
      cases (consultationTry host tbl core now Admission.admitted req).outcome <;> rfl
    | rejected r2 => simp [h1, h2, Admission.isAdmitted] at h
  | rejected r1 =>
    cases h2 : (consume rateLimiterOpts rl2 req.ip now).1 with
    | admitted => simp [h1, h2, Admission.isAdmitted] at h
    | rejected r2 =>
      rw [(rejected_not_generating host tbl core rl1 now req r1 h1).2,
        (rejected_not_generating host tbl core rl2 now req r2 h2).2]

/-- C15: no handler changes the core, so after any sequence of events every field
of the `R3ASICore` is as before; and the response to a consultation request
arriving at a given time is the same after any two histories that lead the
limiter to the same admission decision. -/
theorem consultation_is_stateless (host : Host) (tbl : MethodTable) (s : Server)
    (before1 before2 : List ServerEvent) (now : Nat) (req : Request)
    (hdecision :
      (consume rateLimiterOpts (Server.handleAll host tbl s before1).limiter req.ip now).1.isAdmitted
        = (consume rateLimiterOpts (Server.handleAll host tbl s before2).limiter req.ip now).1.isAdmitted) :
    (Server.handleAll host tbl s before1).core = s.core
      ∧ (Server.handle host tbl (Server.handleAll host tbl s before1)
            (ServerEvent.consultation now req)).1.core = s.core
      ∧ (Server.handle host tbl (Server.handleAll host tbl s before1)
            (ServerEvent.consultation now req)).2
          = (Server.handle host tbl (Server.handleAll host tbl s before2)
              (ServerEvent.consultation now req)).2 := by
  refine ⟨handleAll_core host tbl before1 s, ?_, ?_⟩
  · rw [handle_core, handleAll_core]
  · simp only [Server.handle, handleAll_core]
    exact response_of_decision host tbl s.core _ _ now req hdecision

theorem consultation_is_stateless_witness :
    (Server.handleAll sampleHost stubMethods sampleServer
        [ServerEvent.consultation 0 emptyRequest, ServerEvent.connection "socket-1"]).core
        = sampleServer.core
      ∧ (Server.handle sampleHost stubMethods
            (Server.handleAll sampleHost stubMethods sampleServer
              [ServerEvent.consultation 0 emptyRequest, ServerEvent.connection "socket-1"])
            (ServerEvent.consultation 5 churnRequest)).1.core = sampleServer.core
      ∧ (Server.handle sampleHost stubMethods
            (Server.handleAll sampleHost stubMethods sampleServer
              [ServerEvent.consultation 0 emptyRequest, ServerEvent.connection "socket-1"])
            (ServerEvent.consultation 5 churnRequest)).2
          = (Server.handle sampleHost stubMethods
              (Server.handleAll sampleHost stubMethods sampleServer [])
              (ServerEvent.consultation 5 churnRequest)).2 :=
  consultation_is_stateless sampleHost stubMethods sampleServer
    [ServerEvent.consultation 0 emptyRequest, ServerEvent.connection "socket-1"] [] 5
    churnRequest (by rfl)

/-! ## Construction and configuration -/

/-- C16 (the code at `new R3ASICore()`): with the methods `server.js` defines, the
constructor logs its first line and then throws, because
`loadPatentProtectedAlgorithms` calls `this.generateQuantumAlgorithms`, which the
file never defines. Were the missing methods present, the constructed core would
have the fields the claim lists and `patentProtected` as the one key of
`algorithmDatabase`. -/
theorem constructor_throws :
    (newR3ASICore sourceMethods).outcome
        = Except.error (JSError.typeError "this.generateQuantumAlgorithms is not a function")
      ∧ (newR3ASICore sourceMethods).console
        = [ConsoleLine.log "🌌 R³ ASI CORE INITIALIZING - SUPERINTELLIGENT BUSINESS INTELLIGENCE"]
      ∧ ∃ core, (newR3ASICore stubMethods).outcome = Except.ok core
          ∧ core.superintelligenceLevel = 156
          ∧ core.consciousnessDepth = 947 / 10
          ∧ core.omniscienceFactor = 912 / 10
          ∧ core.quantumProcessors = 10247
          ∧ core.consultationHistory = []
          ∧ core.algorithmDatabase.map Prod.fst = ["patentProtected"] := by
  refine ⟨by rfl, by rfl, _, rfl, rfl, rfl, rfl, rfl, rfl, rfl⟩

/-- No piece of a list split on `a` contains `a`. -/
theorem splitOn_pieces_free (a : Char) :
    ∀ (xs : List Char), ∀ l ∈ xs.splitOn a, a ∉ l := by
  intro xs
  induction xs with
  | nil =>
    intro l hl
    simp [List.splitOn_nil] at hl
    subst hl
    simp
  | cons x rest ih =>
    intro l hl
    unfold List.splitOn at hl ih
    rw [List.splitOnP_cons] at hl
    by_cases hx : (x == a) = true
    · simp only [hx, if_true, List.mem_cons] at hl
      rcases hl with h | h
      · subst h; simp
      · exact ih l h
    · simp only [hx] at hl
      cases hr : List.splitOnP (fun x => x == a) rest with
      | nil => exact absurd hr (List.splitOnP_ne_nil _ _)
      | cons h t =>
        rw [hr] at hl ih
        simp only [List.modifyHead, Bool.false_eq_true, if_false, List.mem_cons] at hl
        rcases hl with h1 | h1
        · subst h1
          have hh := ih h (List.mem_cons_self _ _)
          have hxa : a ≠ x := by
            intro e; apply hx; simp [e]
          simp [hxa, hh]
        · exact ih l (List.mem_cons_of_mem _ h1)

/-- C17 (counterexample): with `ALLOWED_ORIGINS` set to the empty string the allowed
origins are the one-element list holding the empty string, not the wildcard. -/
theorem empty_origins_value_is_not_wildcard :
    corsOrigin (some "") = JSValue.arr [JSValue.str ""]
      ∧ corsOrigin (some "") ≠ JSValue.str "*" := by
  have h : corsOrigin (some "") = JSValue.arr [JSValue.str ""] := by rfl
  refine ⟨h, ?_⟩
  rw [h]
  simp

/-- C17 (as amended): when `ALLOWED_ORIGINS` is unset the allowed origin is the
wildcard `"*"`; whenever it is set, the empty string included, the allowed
origins are the list of its comma-separated segments: comma-free strings that,
joined by commas, give back the value. -/
theorem cors_origin_segments_or_wildcard :
    corsOrigin none = JSValue.str "*"
      ∧ ∀ s : String, ∃ segments : List String,
          corsOrigin (some s) = JSValue.arr (segments.map JSValue.str)
            ∧ [','].intercalate (segments.map String.toList) = s.toList
            ∧ ∀ g ∈ segments, ',' ∉ g.toList := by
  refine ⟨by rfl, ?_⟩
  intro s
  refine ⟨jsSplit s ',', by simp [corsOrigin, truthy], ?_, ?_⟩
  · have : (jsSplit s ',').map String.toList = s.toList.splitOn ',' := by
      simp [jsSplit, List.map_map, Function.comp_def]
    rw [this, List.intercalate_splitOn]
  · intro g hg
    simp only [jsSplit, List.mem_map] at hg
    obtain ⟨l, hl, rfl⟩ := hg
    exact splitOn_pieces_free ',' s.toList l hl

/-- C18: the listening port is the value of `PORT` whenever one is given, that is
whenever `PORT` is a non-empty string, and 3000 when none is given, `PORT` being
unset or empty. -/
theorem port_is_value_or_3000 (port : String) (h : port ≠ "") :
    PORT (some port) = JSValue.str port
      ∧ PORT none = JSValue.num 3000
      ∧ PORT (some "") = JSValue.num 3000 := by
  refine ⟨?_, by rfl, by rfl⟩
  simp [PORT, truthy, h]

theorem port_is_value_or_3000_witness :
    PORT (some "8080") = JSValue.str "8080"
      ∧ PORT none = JSValue.num 3000
      ∧ PORT (some "") = JSValue.num 3000 :=
  port_is_value_or_3000 "8080" (by decide)

/-- The product `750000000 * 0.5` is a double. -/
theorem halved_base_as_a_double : toDouble (750000000 * (1 / 2)) = 375000000 := by
  rw [toDouble_of_floor _ 28 6291456000000000 (by norm_num)
    (by rw [abs_of_pos (by norm_num)]; norm_num) (by rw [abs_of_pos (by norm_num)]; norm_num)
    (by rw [Int.floor_eq_iff]; norm_num)]
  norm_num

/-- The product of `375000000` and the amplifier rounds to 585000000. -/
theorem halved_product_as_a_double : toDouble (375000000 * (7025615418697974 / 2 ^ 52)) = 585000000 := by
  rw [toDouble_of_floor _ 29 4907335680000000 (by norm_num)
    (by rw [abs_of_pos (by norm_num)]; norm_num) (by rw [abs_of_pos (by norm_num)]; norm_num)
    (by rw [Int.floor_eq_iff]; norm_num)]
  norm_num

/-- C19 (the code at `complexity: 0.5`): on the core as constructed
(`superintelligenceLevel` 156), `calculateConsultationValue` returns 585,000,000
for a consultation object with `complexity: 0.5`, which is below the 750,000,000
that the comment of line 210, the log of line 163 and the README give as the
baseline. -/
theorem half_complexity_is_below_baseline :
    calculateConsultationValue sampleHost constructorFields
        (JSValue.obj [("complexity", JSValue.num (1 / 2))])
        = Except.ok (JSNumber.finite 585000000)
      ∧ ((585000000 : ℚ) < 750000000) := by
  refine ⟨?_, by norm_num⟩
  rw [calculate_on_fresh_core sampleHost (JSValue.obj [("complexity", JSValue.num (1 / 2))])
    (JSValue.num (1 / 2)) (1 / 2) 375000000 585000000
    rfl (by simp [complexityMultiplier, truthy, toNumber]) halved_base_as_a_double
    (by rw [abs_of_pos (by norm_num)]; norm_num) halved_product_as_a_double
    (by rw [abs_of_pos (by norm_num)]; norm_num)]
  have h := mathRound_intCast 585000000
  simp only [Int.cast_ofNat] at h
  rw [h]
  simp

/-! ## The estimated value of the real-time analysis -/

/-- Line 1181 for a draw in `[0, 1)`: the rounded sum lies between 50,000,000 and
150,000,000, both ends included. -/
theorem estimated_value_range (random : ℚ) (h0 : 0 ≤ random) (h1 : random < 1) :
    (50000000 : ℚ) ≤ toDouble (toDouble (random * 100000000) + 50000000)
      ∧ toDouble (toDouble (random * 100000000) + 50000000) ≤ 150000000 := by
  have hx0 : (0 : ℚ) ≤ random * 100000000 := by positivity
  have hx1 : random * 100000000 ≤ 100000000 := by linarith
  have hxabs : |random * 100000000| < 2 ^ 53 := by
    rw [abs_of_nonneg hx0]; norm_num; linarith
  have ha : ((0 : ℤ) : ℚ) ≤ toDouble (random * 100000000) :=
    le_toDouble _ 0 hxabs (by simpa using hx0)
  have hb : toDouble (random * 100000000) ≤ ((100000000 : ℤ) : ℚ) :=
    toDouble_le _ 100000000 hxabs (by simpa using hx1)
  simp only [Int.cast_zero, Int.cast_ofNat] at ha hb
  have hy0 : (0 : ℚ) ≤ toDouble (random * 100000000) + 50000000 := by linarith
  have hyabs : |toDouble (random * 100000000) + 50000000| < 2 ^ 53 := by
    rw [abs_of_nonneg hy0]; norm_num; linarith
  have hc := le_toDouble (toDouble (random * 100000000) + 50000000) 50000000 hyabs
    (by push_cast; linarith)
  have hd := toDouble_le (toDouble (random * 100000000) + 50000000) 150000000 hyabs
    (by push_cast; linarith)
  simp only [Int.cast_ofNat] at hc hd
  exact ⟨hc, hd⟩

/-- The product `(1 - 2^-52) * 100000000` rounds to the double just below 100000000. -/
theorem product_at_largest_draw :
    toDouble ((1 - 1 / 2 ^ 52) * 100000000) = 100000000 - 1 / 2 ^ 26 := by
  have he : binadeExponent ((1 - 1 / 2 ^ 52) * 100000000 : ℚ) = 26 := by
    apply binadeExponent_eq _ 26 (by norm_num)
    · rw [abs_of_pos (by norm_num)]; norm_num
    · rw [abs_of_pos (by norm_num)]; norm_num
  have hf : ⌊((1 - 1 / 2 ^ 52) * 100000000 : ℚ) / 2 ^ ((26 : ℤ) - 52)⌋ = 6710886399999998 := by
    rw [Int.floor_eq_iff]
    norm_num
  unfold toDouble
  rw [he, roundHalfEven_of_floor _ _ hf]
  norm_num

/-- The sum `(100000000 - 2^-26) + 50000000` lies halfway between two doubles and
rounds to the even one, 150000000. -/
theorem sum_at_largest_draw :
    toDouble (100000000 - 1 / 2 ^ 26 + 50000000) = 150000000 := by
  have he : binadeExponent (100000000 - 1 / 2 ^ 26 + 50000000 : ℚ) = 27 := by
    apply binadeExponent_eq _ 27 (by norm_num)
    · rw [abs_of_pos (by norm_num)]; norm_num
    · rw [abs_of_pos (by norm_num)]; norm_num
  have hf : ⌊(100000000 - 1 / 2 ^ 26 + 50000000 : ℚ) / 2 ^ ((27 : ℤ) - 52)⌋
      = 5033164799999999 := by
    rw [Int.floor_eq_iff]
    norm_num
  unfold toDouble
  rw [he, roundHalfEven_of_floor _ _ hf]
  norm_num

/-- C20 (counterexample): for the draw `1 - 2^-52`, which lies in `[0, 1)`, the
analysis carries `estimatedValue` 150,000,000, while the floor of the exact sum is
149,999,999. -/
theorem largest_draw_gives_150_million :
    (0 : ℚ) ≤ 1 - 1 / 2 ^ 52 ∧ (1 - 1 / 2 ^ 52 : ℚ) < 1
      ∧ (∃ a, generateRealTimeAnalysis stubMethods (1 - 1 / 2 ^ 52) (JSValue.obj []) = Except.ok a
          ∧ getProp a "estimatedValue" = Except.ok (JSValue.num 150000000))
      ∧ mathFloor ((1 - 1 / 2 ^ 52) * 100000000 + 50000000) = 149999999 := by
  have hv : ((mathFloor (toDouble (toDouble ((1 - 1 / 2 ^ 52) * 100000000) + 50000000)) : ℤ) : ℚ)
      = 150000000 := by
    rw [product_at_largest_draw, sum_at_largest_draw]
    simp [mathFloor]
  refine ⟨by norm_num, by norm_num, ⟨_, rfl, ?_⟩, ?_⟩
  · rw [← hv]
    rfl
  · unfold mathFloor
    rw [Int.floor_eq_iff]
    norm_num

/-- C20 (as amended): whenever `generateRealTimeAnalysis` returns, for a draw `r` with
`0 ≤ r < 1`, its `estimatedValue` is the integer floor of `r * 100000000 + 50000000`
as computed in doubles (product and sum each rounded to the nearest double), and
`50,000,000 ≤ estimatedValue ≤ 150,000,000`. -/
theorem estimated_value_in_closed_range (tbl : MethodTable) (random : ℚ) (businessData a : JSValue)
    (h0 : 0 ≤ random) (h1 : random < 1)
    (ha : generateRealTimeAnalysis tbl random businessData = Except.ok a) :
    ∃ v : ℤ, getProp a "estimatedValue" = Except.ok (JSValue.num v)
      ∧ v = mathFloor (toDouble (toDouble (random * 100000000) + 50000000))
      ∧ 50000000 ≤ v ∧ v ≤ 150000000 := by
  obtain ⟨hlo, hhi⟩ := estimated_value_range random h0 h1
  refine ⟨mathFloor (toDouble (toDouble (random * 100000000) + 50000000)), ?_, rfl, ?_, ?_⟩
  · simp only [generateRealTimeAnalysis, bind, Except.bind] at ha
    cases h1 : callMethod tbl "identifyMarketOpportunities" [businessData] with
    | error e => simp [h1] at ha
    | ok v1 =>
      cases h2 : callMethod tbl "analyzeCompetitors" [businessData] with
      | error e => simp [h1, h2] at ha
      | ok v2 =>
        cases h3 : callMethod tbl "optimizeOperations" [businessData] with
        | error e => simp [h1, h2, h3] at ha
        | ok v3 =>
          cases h4 : callMethod tbl "projectFinancials" [businessData] with
          | error e => simp [h1, h2, h3, h4] at ha
          | ok v4 =>
            simp only [h1, h2, h3, h4, pure, Except.pure, Except.ok.injEq] at ha
            subst ha
            simp [getProp, lookupField]
  · exact Int.le_floor.mpr (by exact_mod_cast hlo)
  · have : (mathFloor (toDouble (toDouble (random * 100000000) + 50000000)) : ℚ) ≤ 150000000 :=
      le_trans (Int.floor_le _) hhi
    exact_mod_cast this

theorem estimated_value_in_closed_range_witness :
    ∃ v : ℤ, getProp (JSValue.obj
          [("marketOpportunities", JSValue.obj []),
           ("competitiveLandscape", JSValue.obj []),
           ("operationalOptimization", JSValue.obj []),
           ("financialProjections", JSValue.obj []),
           ("estimatedValue",
              JSValue.num (mathFloor (toDouble (toDouble ((1 / 2 : ℚ) * 100000000) + 50000000))))])
          "estimatedValue" = Except.ok (JSValue.num v)
      ∧ v = mathFloor (toDouble (toDouble ((1 / 2 : ℚ) * 100000000) + 50000000))
      ∧ 50000000 ≤ v ∧ v ≤ 150000000 :=
  estimated_value_in_closed_range stubMethods (1 / 2) (JSValue.obj []) _ (by norm_num)
    (by norm_num) rfl

/-! ## The closures, the consultation value, and the failing paths -/

/-- C21: `processAwarenessPatterns`, `amplifyConsciousnessSignals` and
`synthesizeBusinessIntelligence` each return one fixed record whatever they are
given, so for any two inputs the closure `selfAwarenessEmergence` returns the same
value, `amplifiedSignals: 'SUPERINTELLIGENT_LEVEL', consciousnessDepth: 94.7`;
calling the closure stored under that name gives this value for every method
table. -/
theorem algorithms_ignore_their_input (d1 d2 : JSValue) (tbl : MethodTable) :
    processAwarenessPatterns d1 = processAwarenessPatterns d2
      ∧ amplifyConsciousnessSignals d1 = amplifyConsciousnessSignals d2
      ∧ synthesizeBusinessIntelligence d1 = synthesizeBusinessIntelligence d2
      ∧ selfAwarenessEmergence d1 = selfAwarenessEmergence d2
      ∧ selfAwarenessEmergence d1
          = JSValue.obj
              [("amplifiedSignals", JSValue.str "SUPERINTELLIGENT_LEVEL"),
               ("consciousnessDepth", JSValue.num (947 / 10))]
      ∧ applyAlgorithm tbl "selfAwarenessEmergence" d1
          = Except.ok (JSValue.obj
              [("amplifiedSignals", JSValue.str "SUPERINTELLIGENT_LEVEL"),
               ("consciousnessDepth", JSValue.num (947 / 10))]) :=
  ⟨rfl, rfl, rfl, rfl, rfl, rfl⟩

/-- Nothing that follows the request is another request. -/
theorem afterFetch_no_fetch (fetched : Except JSError JSValue) :
    ∀ e ∈ afterFetch fetched, e.isFetch = false := by
  intro e he
  unfold afterFetch at he
  cases hs : showFetched fetched with
  | error err =>
    rw [hs] at he
    simp at he
    rcases he with h | h | h <;> subst h <;> rfl
  | ok effects =>
    rw [hs] at he
    have hshape : effects = [PageEffect.displayError "Superintelligent processing temporarily unavailable"]
        ∨ ∃ c, effects = [PageEffect.displayConsultationResults c] := by
      unfold showFetched at hs
      cases fetched with
      | error err => simp [bind, Except.bind] at hs
      | ok result =>
        simp only [bind, Except.bind] at hs
        cases h1 : getProp result "success" with
        | error err => simp [h1] at hs
        | ok success =>
          simp only [h1] at hs
          by_cases ht : truthy success = true
          · simp only [ht, if_true] at hs
            cases h2 : getProp result "consultation" with
            | error err => simp [h2] at hs
            | ok c =>
              simp only [h2] at hs
              cases h3 : getProp c "consultationValue" with
              | error err => simp [h3] at hs
              | ok v =>
                simp only [h3, pure, Except.pure, Except.ok.injEq] at hs
                exact Or.inr ⟨c, hs.symm⟩
          · simp only [ht, pure, Except.pure] at hs
            simp at hs
            exact Or.inl hs.symm
    rcases hshape with h | ⟨c, h⟩ <;> subst h <;> simp at he <;>
      rcases he with h | h <;> subst h <;> rfl

/-- C22: the page's `generateSupertintelligentConsultation` either finds one of
`businessQuery`, `industry`, `companySize` empty, and then only shows the alert (no
request, no loading state), or finds all three non-empty, and then enters the
loading state and sends one `POST /api/v1/consultation` whose body is
`businessQuery, clientContext: industry, companySize, timestamp, consultationTier:
'superintelligent'` built from the three values. -/
theorem page_sends_only_complete_forms (host : Host) (now : Nat)
    (businessQuery industry companySize : String) (fetched : Except JSError JSValue) :
    ((businessQuery = "" ∨ industry = "" ∨ companySize = "")
        ∧ R3ASIInterface.generateSupertintelligentConsultation host now businessQuery industry
            companySize fetched
          = [PageEffect.alert "Please fill in all fields for optimal superintelligent analysis"])
      ∨ ((businessQuery ≠ "" ∧ industry ≠ "" ∧ companySize ≠ "")
        ∧ ∃ rest,
            R3ASIInterface.generateSupertintelligentConsultation host now businessQuery industry
                companySize fetched
              = PageEffect.showLoading true
                  :: PageEffect.fetch "/api/v1/consultation" "POST" "application/json"
                      (JSValue.obj
                        [("businessQuery", JSValue.str businessQuery),
                         ("clientContext", JSValue.obj
                            [("industry", JSValue.str industry),
                             ("companySize", JSValue.str companySize),
                             ("timestamp", JSValue.str (host.toISOString now))]),
                         ("consultationTier", JSValue.str "superintelligent")])
                  :: rest
            ∧ ∀ e ∈ rest, e.isFetch = false) := by
  by_cases h : businessQuery = "" ∨ industry = "" ∨ companySize = ""
  · left
    refine ⟨h, ?_⟩
    unfold R3ASIInterface.generateSupertintelligentConsultation
    rcases h with h | h | h <;> simp [truthy, h]
  · right
    have h' : businessQuery ≠ "" ∧ industry ≠ "" ∧ companySize ≠ "" := by
      simpa [not_or] using h
    refine ⟨h', afterFetch fetched, ?_, afterFetch_no_fetch fetched⟩
    simp [R3ASIInterface.generateSupertintelligentConsultation, truthy, h'.1, h'.2.1, h'.2.2,
      consultationRequestBody]

/-- The product `750000000 * 1000000001` is a double. -/
theorem large_base_as_a_double : toDouble (750000000 * 1000000001) = 750000000750000000 := by
  rw [toDouble_of_floor _ 59 5859375005859375 (by norm_num)
    (by rw [abs_of_pos (by norm_num)]; norm_num) (by rw [abs_of_pos (by norm_num)]; norm_num)
    (by rw [Int.floor_eq_iff]; norm_num)]
  norm_num

/-- The product of `750000000750000000` and the amplifier rounds up to a multiple of 256. -/
theorem large_product_as_a_double : toDouble (750000000750000000 * (7025615418697974 / 2 ^ 52)) = 1170000001170000128 := by
  rw [toDouble_of_floor _ 60 4570312504570312 (by norm_num)
    (by rw [abs_of_pos (by norm_num)]; norm_num) (by rw [abs_of_pos (by norm_num)]; norm_num)
    (by rw [Int.floor_eq_iff]; norm_num)]
  norm_num

/-- The product `750000000750000000 * 156` rounds down to a multiple of 16384. -/
theorem large_base_times_level_as_a_double : toDouble (750000000750000000 * 156) = 117000000116999995392 := by
  rw [toDouble_of_floor _ 66 7141113288391113 (by norm_num)
    (by rw [abs_of_pos (by norm_num)]; norm_num) (by rw [abs_of_pos (by norm_num)]; norm_num)
    (by rw [Int.floor_eq_iff]; norm_num)]
  norm_num

/-- The quotient `117000000116999995392 / 100` rounds to a multiple of 256. -/
theorem large_quotient_as_a_double : toDouble (117000000116999995392 / 100) = 1170000001169999872 := by
  rw [toDouble_of_floor _ 60 4570312504570312 (by norm_num)
    (by rw [abs_of_pos (by norm_num)]; norm_num) (by rw [abs_of_pos (by norm_num)]; norm_num)
    (by rw [Int.floor_eq_iff]; norm_num)]
  norm_num

/-- C23 (counterexample): on the core as constructed, a consultation object with
`complexity: 1000000001` gets the value 1,170,000,001,170,000,128, while
`round(750000000 * 1000000001 * 156 / 100)` is 1,170,000,001,170,000,000, and is
1,170,000,001,169,999,872 when that expression is itself evaluated in doubles from
left to right. -/
theorem large_complexity_differs_from_exact_formula :
    calculateConsultationValue sampleHost constructorFields
        (JSValue.obj [("complexity", JSValue.num 1000000001)])
        = Except.ok (JSNumber.finite 1170000001170000128)
      ∧ mathRound (750000000 * 1000000001 * 156 / 100) = 1170000001170000000
      ∧ mathRound (toDouble (toDouble (toDouble (750000000 * 1000000001) * 156) / 100))
          = 1170000001169999872 := by
  refine ⟨?_, ?_, ?_⟩
  · rw [calculate_on_fresh_core sampleHost
      (JSValue.obj [("complexity", JSValue.num 1000000001)])
      (JSValue.num 1000000001) 1000000001 750000000750000000 1170000001170000128
      rfl (by simp [complexityMultiplier, truthy, toNumber]) large_base_as_a_double
      (by rw [abs_of_pos (by norm_num)]; norm_num) large_product_as_a_double
      (by rw [abs_of_pos (by norm_num)]; norm_num)]
    have h := mathRound_intCast 1170000001170000128
    simp only [Int.cast_ofNat] at h
    rw [h]
    simp
  · unfold mathRound
    rw [Int.floor_eq_iff]
    norm_num
  · rw [large_base_as_a_double, large_base_times_level_as_a_double, large_quotient_as_a_double]
    unfold mathRound
    rw [Int.floor_eq_iff]
    norm_num

/-- Three roundings in a row move a positive product by at most four parts in
`2 ^ 53`. -/
theorem three_roundings (P A p a q : ℚ) (hP : 0 < P) (hA : 0 < A)
    (hp : |p - P| ≤ P / 2 ^ 53) (ha : |a - A| ≤ A / 2 ^ 53)
    (hq : |q - p * a| ≤ p * a / 2 ^ 53) :
    |q - P * A| ≤ P * A / 2 ^ 51 := by
  rw [abs_le] at hp ha hq ⊢
  obtain ⟨hp1, hp2⟩ := hp
  obtain ⟨ha1, ha2⟩ := ha
  obtain ⟨hq1, hq2⟩ := hq
  have hX : 0 < P * A := mul_pos hP hA
  have hp_lo : P * (1 - 1 / 2 ^ 53) ≤ p := by linarith
  have hp_hi : p ≤ P * (1 + 1 / 2 ^ 53) := by linarith
  have ha_lo : A * (1 - 1 / 2 ^ 53) ≤ a := by linarith
  have ha_hi : a ≤ A * (1 + 1 / 2 ^ 53) := by linarith
  have hp0 : 0 ≤ p := le_trans (mul_nonneg hP.le (by norm_num)) hp_lo
  have ha0 : 0 ≤ a := le_trans (mul_nonneg hA.le (by norm_num)) ha_lo
  have hQ_hi : p * a ≤ P * (1 + 1 / 2 ^ 53) * (A * (1 + 1 / 2 ^ 53)) :=
    mul_le_mul hp_hi ha_hi ha0 (mul_nonneg hP.le (by norm_num))
  have hQ_lo : P * (1 - 1 / 2 ^ 53) * (A * (1 - 1 / 2 ^ 53)) ≤ p * a :=
    mul_le_mul hp_lo ha_lo (mul_nonneg hA.le (by norm_num)) hp0
  have hup : P * (1 + 1 / 2 ^ 53) * (A * (1 + 1 / 2 ^ 53)) * (1 + 1 / 2 ^ 53)
      ≤ P * A * (1 + 1 / 2 ^ 51) := by
    have : (1 + 1 / 2 ^ 53 : ℚ) * (1 + 1 / 2 ^ 53) * (1 + 1 / 2 ^ 53) ≤ 1 + 1 / 2 ^ 51 := by
      norm_num
    calc P * (1 + 1 / 2 ^ 53) * (A * (1 + 1 / 2 ^ 53)) * (1 + 1 / 2 ^ 53)
        = P * A * ((1 + 1 / 2 ^ 53) * (1 + 1 / 2 ^ 53) * (1 + 1 / 2 ^ 53)) := by ring
      _ ≤ P * A * (1 + 1 / 2 ^ 51) := mul_le_mul_of_nonneg_left this hX.le
  have hdown : P * A * (1 - 1 / 2 ^ 51)
      ≤ P * (1 - 1 / 2 ^ 53) * (A * (1 - 1 / 2 ^ 53)) * (1 - 1 / 2 ^ 53) := by
    have : (1 - 1 / 2 ^ 51 : ℚ) ≤ (1 - 1 / 2 ^ 53) * (1 - 1 / 2 ^ 53) * (1 - 1 / 2 ^ 53) := by
      norm_num
    calc P * A * (1 - 1 / 2 ^ 51)
        ≤ P * A * ((1 - 1 / 2 ^ 53) * (1 - 1 / 2 ^ 53) * (1 - 1 / 2 ^ 53)) :=
          mul_le_mul_of_nonneg_left this hX.le
      _ = P * (1 - 1 / 2 ^ 53) * (A * (1 - 1 / 2 ^ 53)) * (1 - 1 / 2 ^ 53) := by ring
  have hq_hi : q ≤ p * a * (1 + 1 / 2 ^ 53) := by linarith
  have hq_lo : p * a * (1 - 1 / 2 ^ 53) ≤ q := by linarith
  have h1 : p * a * (1 + 1 / 2 ^ 53)
      ≤ P * (1 + 1 / 2 ^ 53) * (A * (1 + 1 / 2 ^ 53)) * (1 + 1 / 2 ^ 53) :=
    mul_le_mul_of_nonneg_right hQ_hi (by norm_num)
  have h2 : P * (1 - 1 / 2 ^ 53) * (A * (1 - 1 / 2 ^ 53)) * (1 - 1 / 2 ^ 53)
      ≤ p * a * (1 - 1 / 2 ^ 53) :=
    mul_le_mul_of_nonneg_right hQ_lo (by norm_num)
  constructor <;> linarith

/-- C23 (as amended): `calculateConsultationValue` is `Math.round` of the product
`750000000 * m * (superintelligenceLevel / 100)` computed in doubles, `m` being
`complexity` when that is truthy and 1 otherwise. For `m` and
`superintelligenceLevel` between `10 ^ -100` and `10 ^ 100` the value is an integer
within `1/2 + x / 2 ^ 51` of `x = 750000000 * m * superintelligenceLevel / 100`; a
`complexity` of 0, like an absent one, gives the same as 1; and on the core as
constructed an object without `complexity` gives exactly 1,170,000,000. -/
theorem consultation_value_formula (host : Host) (core : R3ASICore) (consultation c : JSValue)
    (m : ℚ)
    (hc : getProp consultation "complexity" = Except.ok c)
    (hm : toNumber host (complexityMultiplier c) = JSNumber.finite m)
    (hm0 : 1 / 10 ^ 100 ≤ m) (hm1 : m ≤ 10 ^ 100)
    (hl0 : 1 / 10 ^ 100 ≤ core.superintelligenceLevel)
    (hl1 : core.superintelligenceLevel ≤ 10 ^ 100) :
    (∃ v : ℤ, calculateConsultationValue host core consultation
          = Except.ok (JSNumber.finite (v : ℚ))
        ∧ |(v : ℚ) - 750000000 * m * core.superintelligenceLevel / 100|
            ≤ 1 / 2 + 750000000 * m * core.superintelligenceLevel / 100 / 2 ^ 51)
      ∧ calculateConsultationValue host core (JSValue.obj [("complexity", JSValue.num 0)])
          = calculateConsultationValue host core (JSValue.obj [("complexity", JSValue.num 1)])
      ∧ calculateConsultationValue host core (JSValue.obj [])
          = calculateConsultationValue host core (JSValue.obj [("complexity", JSValue.num 1)])
      ∧ calculateConsultationValue host constructorFields (JSValue.obj [])
          = Except.ok (JSNumber.finite 1170000000) := by
  refine ⟨?_, ?_, ?_, fresh_value host⟩
  · have hmpos : 0 < m := lt_of_lt_of_le (by positivity) hm0
    have hlpos : 0 < core.superintelligenceLevel := lt_of_lt_of_le (by positivity) hl0
    have hApos : 0 < core.superintelligenceLevel / 100 := by positivity
    have hPpos : (0 : ℚ) < 750000000 * m := by positivity
    have hsmall : (2 : ℚ) ^ (-1022 : ℤ) ≤ 1 / 10 ^ 300 := by
      rw [zpow_neg, ← one_div]
      apply one_div_le_one_div_of_le (by positivity)
      norm_num
    obtain ⟨ha, ha0, ha1⟩ := ofExact_of_le_two_pow (core.superintelligenceLevel / 100) 333
      (by norm_num) hApos.le
      (le_trans (div_le_div_of_nonneg_right hl1 (by norm_num)) (by norm_num))
    obtain ⟨hp, hp0, hp1⟩ := ofExact_of_le_two_pow (750000000 * m) 363 (by norm_num) hPpos.le
      (le_trans (mul_le_mul_of_nonneg_left hm1 (by norm_num)) (by norm_num))
    obtain ⟨hq, _, _⟩ := ofExact_of_le_two_pow
      (toDouble (750000000 * m) * toDouble (core.superintelligenceLevel / 100)) 696 (by norm_num)
      (mul_nonneg hp0 ha0)
      (by
        calc toDouble (750000000 * m) * toDouble (core.superintelligenceLevel / 100)
            ≤ 2 ^ 363 * 2 ^ 333 := mul_le_mul hp1 ha1 ha0 (by positivity)
          _ = 2 ^ 696 := by rw [← pow_add])
    have hAerr := abs_toDouble_sub_le (core.superintelligenceLevel / 100) hApos
      (le_trans hsmall (by
        calc (1 : ℚ) / 10 ^ 300 ≤ 1 / 10 ^ 100 / 100 := by norm_num
          _ ≤ core.superintelligenceLevel / 100 :=
            div_le_div_of_nonneg_right hl0 (by norm_num)))
    have hPerr := abs_toDouble_sub_le (750000000 * m) hPpos
      (le_trans hsmall (by
        calc (1 : ℚ) / 10 ^ 300 ≤ 750000000 * (1 / 10 ^ 100) := by norm_num
          _ ≤ 750000000 * m := mul_le_mul_of_nonneg_left hm0 (by norm_num)))
    have hAlo : core.superintelligenceLevel / 100 / 2 ≤ toDouble (core.superintelligenceLevel / 100) := by
      have := (abs_le.mp hAerr).1
      have h53 : core.superintelligenceLevel / 100 / 2 ^ 53 ≤ core.superintelligenceLevel / 100 / 2 :=
        div_le_div_of_nonneg_left hApos.le (by norm_num) (by norm_num)
      linarith
    have hPlo : 750000000 * m / 2 ≤ toDouble (750000000 * m) := by
      have := (abs_le.mp hPerr).1
      have h53 : 750000000 * m / 2 ^ 53 ≤ 750000000 * m / 2 :=
        div_le_div_of_nonneg_left hPpos.le (by norm_num) (by norm_num)
      linarith
    have hQlo : (1 : ℚ) / 10 ^ 300
        ≤ toDouble (750000000 * m) * toDouble (core.superintelligenceLevel / 100) := by
      have h1 : (1 : ℚ) / 10 ^ 100 ≤ 750000000 * m / 2 := by
        have : (1 : ℚ) / 10 ^ 100 ≤ 750000000 * (1 / 10 ^ 100) / 2 := by norm_num
        have h2 : 750000000 * (1 / 10 ^ 100) / 2 ≤ 750000000 * m / 2 :=
          div_le_div_of_nonneg_right (mul_le_mul_of_nonneg_left hm0 (by norm_num)) (by norm_num)
        linarith
      have h2 : (1 : ℚ) / 10 ^ 200 ≤ core.superintelligenceLevel / 100 / 2 := by
        have : (1 : ℚ) / 10 ^ 200 ≤ 1 / 10 ^ 100 / 100 / 2 := by norm_num
        have h3 : (1 : ℚ) / 10 ^ 100 / 100 / 2 ≤ core.superintelligenceLevel / 100 / 2 :=
          div_le_div_of_nonneg_right (div_le_div_of_nonneg_right hl0 (by norm_num)) (by norm_num)
        linarith
      calc (1 : ℚ) / 10 ^ 300 = 1 / 10 ^ 100 * (1 / 10 ^ 200) := by norm_num
        _ ≤ toDouble (750000000 * m) * toDouble (core.superintelligenceLevel / 100) :=
          mul_le_mul (le_trans h1 hPlo) (le_trans h2 hAlo) (by positivity)
            (le_trans (by positivity) hPlo)
    have hQpos : 0 < toDouble (750000000 * m) * toDouble (core.superintelligenceLevel / 100) :=
      lt_of_lt_of_le (by positivity) hQlo
    have hQerr := abs_toDouble_sub_le _ hQpos (le_trans hsmall hQlo)
    have h3 := three_roundings (750000000 * m) (core.superintelligenceLevel / 100) _ _ _
      hPpos hApos hPerr hAerr hQerr
    have hround := abs_mathRound_sub_le
      (toDouble (toDouble (750000000 * m) * toDouble (core.superintelligenceLevel / 100)))
    refine ⟨mathRound
      (toDouble (toDouble (750000000 * m) * toDouble (core.superintelligenceLevel / 100))), ?_, ?_⟩
    · simp only [calculateConsultationValue, hc, hm, ha, bind, Except.bind, pure, Except.pure,
        JSNumber.mul, hp, hq, JSNumber.round]
    · have hX : 750000000 * m * core.superintelligenceLevel / 100
          = 750000000 * m * (core.superintelligenceLevel / 100) := by ring
      rw [hX]
      rw [abs_le] at h3 hround ⊢
      constructor <;> linarith [h3.1, h3.2, hround.1, hround.2]
  · simp [calculateConsultationValue, getProp, lookupField, complexityMultiplier, truthy, bind,
      Except.bind]
  · simp [calculateConsultationValue, getProp, lookupField, complexityMultiplier, truthy, bind,
      Except.bind]

theorem consultation_value_formula_witness :
    (∃ v : ℤ, calculateConsultationValue sampleHost constructorFields
            (JSValue.obj [("complexity", JSValue.num 1000000001)])
          = Except.ok (JSNumber.finite (v : ℚ))
        ∧ |(v : ℚ) - 750000000 * 1000000001 * constructorFields.superintelligenceLevel / 100|
            ≤ 1 / 2
              + 750000000 * 1000000001 * constructorFields.superintelligenceLevel / 100 / 2 ^ 51)
      ∧ calculateConsultationValue sampleHost constructorFields
            (JSValue.obj [("complexity", JSValue.num 0)])
          = calculateConsultationValue sampleHost constructorFields
              (JSValue.obj [("complexity", JSValue.num 1)])
      ∧ calculateConsultationValue sampleHost constructorFields (JSValue.obj [])
          = calculateConsultationValue sampleHost constructorFields
              (JSValue.obj [("complexity", JSValue.num 1)])
      ∧ calculateConsultationValue sampleHost constructorFields (JSValue.obj [])
          = Except.ok (JSNumber.finite 1170000000) :=
  consultation_value_formula sampleHost constructorFields
    (JSValue.obj [("complexity", JSValue.num 1000000001)]) (JSValue.num 1000000001) 1000000001
    rfl (by simp [complexityMultiplier, truthy, toNumber]) (by norm_num) (by norm_num)
    (by norm_num [constructorFields]) (by norm_num [constructorFields])

/-- C25: with the methods `server.js` defines, `generateAlgorithmFromProblem` throws
for every three arguments, at its first step `this.analyzeProblematicPatterns`,
and `POST /api/v1/algorithm-generation` answers every request with status 500
and `success: false, error: 'Algorithm generation requires proper licensing'`. -/
theorem algorithm_generation_always_fails (problemDescription domainType complexityLevel : JSValue)
    (req : Request) :
    (generateAlgorithmFromProblem sourceMethods problemDescription domainType
          complexityLevel).outcome
        = Except.error (JSError.typeError "this.analyzeProblematicPatterns is not a function")
      ∧ (postAlgorithmGeneration sourceMethods req).response
        = some { status := 500
                 body := JSValue.obj
                   [("success", JSValue.bool false),
                    ("error", JSValue.str "Algorithm generation requires proper licensing")] } := by
  constructor
  · rfl
  · cases h : (generatedAlgorithm sourceMethods req).outcome with
    | error e => exact algorithm_of_error sourceMethods req e h
    | ok a =>
      exfalso
      simp only [generatedAlgorithm, bind, Run.andThen, Run.ofExcept] at h
      cases h1 : getProp req.body "problemDescription" with
      | error e => simp [h1] at h
      | ok pd =>
        cases h2 : getProp req.body "domainType" with
        | error e => simp [h1, h2] at h
        | ok dt =>
          cases h3 : getProp req.body "complexityLevel" with
          | error e => simp [h1, h2, h3] at h
          | ok cl =>
            simp only [h1, h2, h3] at h
            have hg : (generateAlgorithmFromProblem sourceMethods pd dt cl).outcome
                = Except.error
                    (JSError.typeError "this.analyzeProblematicPatterns is not a function") := rfl
            rw [hg] at h
            simp at h

/-- C26: with the methods `server.js` defines, `generateRealTimeAnalysis` throws for
every draw and every business data, at its first field
`this.identifyMarketOpportunities`, before `estimatedValue` is computed; the
`requestSuperintelligentAnalysis` handler therefore emits, for every payload,
exactly the one message `asiError` with `error: 'Superintelligent processing
temporarily limited', recommendation: 'Upgrade to Enterprise ASI for unlimited
access'`, and never `superintelligentInsights`. -/
theorem analysis_request_always_gets_error (host : Host) (random : ℚ) (businessData data : JSValue) :
    generateRealTimeAnalysis sourceMethods random businessData
        = Except.error (JSError.typeError "this.identifyMarketOpportunities is not a function")
      ∧ onRequestSuperintelligentAnalysis host sourceMethods random data
        = [{ event := "asiError"
             payload := JSValue.obj
               [("error", JSValue.str "Superintelligent processing temporarily limited"),
                ("recommendation",
                  JSValue.str "Upgrade to Enterprise ASI for unlimited access")] }] := by
  constructor
  · rfl
  · have h : ∃ e, awaitedAnalysis sourceMethods random data = Except.error e := by
      unfold awaitedAnalysis
      cases hb : getProp data "businessData" with
      | error e => exact ⟨e, rfl⟩
      | ok bd => exact ⟨_, rfl⟩
    obtain ⟨e, he⟩ := h
    simp [onRequestSuperintelligentAnalysis, deliverAnalysis, he, bind, Except.bind,
      asiErrorPayload]

/-! ## The metrics animation of the page -/

/-- The metrics the page starts with are capped. -/
theorem asiMetrics_capped : R3ASIInterface.asiMetrics.Capped := by
  refine ⟨by norm_num [R3ASIInterface.asiMetrics], by norm_num [R3ASIInterface.asiMetrics],
    by norm_num [R3ASIInterface.asiMetrics], 10247, by norm_num [R3ASIInterface.asiMetrics]⟩

/-- One tick keeps the metrics capped, whatever the draws. -/
theorem updateMetrics_capped (m : AsiMetrics) (d : MetricDraws) (h : m.Capped) :
    (R3ASIInterface.updateMetrics m d).Capped := by
  obtain ⟨_, _, _, n, hn⟩ := h
  refine ⟨min_le_right _ _, min_le_right _ _, min_le_right _ _,
    n + mathFloor (d.processors * 100), ?_⟩
  simp [R3ASIInterface.updateMetrics, hn]

/-- The metrics stay capped over any number of ticks. -/
theorem foldl_updateMetrics_capped :
    ∀ (ticks : List MetricDraws) (m : AsiMetrics), m.Capped →
      (ticks.foldl R3ASIInterface.updateMetrics m).Capped := by
  intro ticks
  induction ticks with
  | nil => intro m h; exact h
  | cons d rest ih =>
    intro m h
    exact ih _ (updateMetrics_capped m d h)

/-- C24: after any number of `updateMetrics` ticks from the initial metrics
(94.7, 91.2, 92.4), `consciousnessDepth`, `omniscienceFactor` and `marketDominance`
are at most 99.9 and `quantumProcessors` is an integer; and one more tick with
draws in `[0, 1)` leaves the three at most 99.9 and not smaller than before, does
not decrease `superintelligenceLevel` or `quantumProcessors`, and leaves
`quantumProcessors` an integer. -/
theorem metrics_are_capped_and_monotone (ticks : List MetricDraws) (d : MetricDraws)
    (hd : d.InUnitInterval) :
    ((R3ASIInterface.startMetricsAnimation ticks).consciousnessDepth ≤ 999 / 10
        ∧ (R3ASIInterface.startMetricsAnimation ticks).omniscienceFactor ≤ 999 / 10
        ∧ (R3ASIInterface.startMetricsAnimation ticks).marketDominance ≤ 999 / 10
        ∧ ∃ n : ℤ, (R3ASIInterface.startMetricsAnimation ticks).quantumProcessors = n)
      ∧ ((R3ASIInterface.startMetricsAnimation (ticks ++ [d])).consciousnessDepth ≤ 999 / 10
        ∧ (R3ASIInterface.startMetricsAnimation (ticks ++ [d])).omniscienceFactor ≤ 999 / 10
        ∧ (R3ASIInterface.startMetricsAnimation (ticks ++ [d])).marketDominance ≤ 999 / 10
        ∧ ∃ n : ℤ, (R3ASIInterface.startMetricsAnimation (ticks ++ [d])).quantumProcessors = n)
      ∧ (R3ASIInterface.startMetricsAnimation ticks).consciousnessDepth
          ≤ (R3ASIInterface.startMetricsAnimation (ticks ++ [d])).consciousnessDepth
      ∧ (R3ASIInterface.startMetricsAnimation ticks).omniscienceFactor
          ≤ (R3ASIInterface.startMetricsAnimation (ticks ++ [d])).omniscienceFactor
      ∧ (R3ASIInterface.startMetricsAnimation ticks).marketDominance
          ≤ (R3ASIInterface.startMetricsAnimation (ticks ++ [d])).marketDominance
      ∧ (R3ASIInterface.startMetricsAnimation ticks).superintelligenceLevel
          ≤ (R3ASIInterface.startMetricsAnimation (ticks ++ [d])).superintelligenceLevel
      ∧ (R3ASIInterface.startMetricsAnimation ticks).quantumProcessors
          ≤ (R3ASIInterface.startMetricsAnimation (ticks ++ [d])).quantumProcessors := by
  have hcap := foldl_updateMetrics_capped ticks _ asiMetrics_capped
  have hstep : R3ASIInterface.startMetricsAnimation (ticks ++ [d])
      = R3ASIInterface.updateMetrics (R3ASIInterface.startMetricsAnimation ticks) d := by
    simp [R3ASIInterface.startMetricsAnimation, List.foldl_append]
  obtain ⟨⟨hl0, _⟩, ⟨hc0, _⟩, ⟨ho0, _⟩, ⟨hm0, _⟩, ⟨hp0, _⟩⟩ := hd
  have hcap2 := updateMetrics_capped _ d hcap
  rw [hstep]
  refine ⟨hcap, hcap2, ?_, ?_, ?_, ?_, ?_⟩
  · exact le_min (by linarith) hcap.1
  · exact le_min (by linarith) hcap.2.1
  · exact le_min (by linarith) hcap.2.2.1
  · simp only [R3ASIInterface.updateMetrics]; nlinarith
  · simp only [R3ASIInterface.updateMetrics]
    have : (0 : ℤ) ≤ mathFloor (d.processors * 100) :=
      Int.floor_nonneg.mpr (by positivity)
    have h2 : (0 : ℚ) ≤ (mathFloor (d.processors * 100) : ℚ) := by exact_mod_cast this
    linarith

theorem metrics_are_capped_and_monotone_witness :
    ((R3ASIInterface.startMetricsAnimation [halfDraws]).consciousnessDepth ≤ 999 / 10
        ∧ (R3ASIInterface.startMetricsAnimation [halfDraws]).omniscienceFactor ≤ 999 / 10
        ∧ (R3ASIInterface.startMetricsAnimation [halfDraws]).marketDominance ≤ 999 / 10
        ∧ ∃ n : ℤ, (R3ASIInterface.startMetricsAnimation [halfDraws]).quantumProcessors = n)
      ∧ ((R3ASIInterface.startMetricsAnimation ([halfDraws] ++ [highDraws])).consciousnessDepth
            ≤ 999 / 10
        ∧ (R3ASIInterface.startMetricsAnimation ([halfDraws] ++ [highDraws])).omniscienceFactor
            ≤ 999 / 10
        ∧ (R3ASIInterface.startMetricsAnimation ([halfDraws] ++ [highDraws])).marketDominance
            ≤ 999 / 10
        ∧ ∃ n : ℤ,
            (R3ASIInterface.startMetricsAnimation ([halfDraws] ++ [highDraws])).quantumProcessors
              = n)
      ∧ (R3ASIInterface.startMetricsAnimation [halfDraws]).consciousnessDepth
          ≤ (R3ASIInterface.startMetricsAnimation ([halfDraws] ++ [highDraws])).consciousnessDepth
      ∧ (R3ASIInterface.startMetricsAnimation [halfDraws]).omniscienceFactor
          ≤ (R3ASIInterface.startMetricsAnimation ([halfDraws] ++ [highDraws])).omniscienceFactor
      ∧ (R3ASIInterface.startMetricsAnimation [halfDraws]).marketDominance
          ≤ (R3ASIInterface.startMetricsAnimation ([halfDraws] ++ [highDraws])).marketDominance
      ∧ (R3ASIInterface.startMetricsAnimation [halfDraws]).superintelligenceLevel
          ≤ (R3ASIInterface.startMetricsAnimation
              ([halfDraws] ++ [highDraws])).superintelligenceLevel
      ∧ (R3ASIInterface.startMetricsAnimation [halfDraws]).quantumProcessors
          ≤ (R3ASIInterface.startMetricsAnimation ([halfDraws] ++ [highDraws])).quantumProcessors :=
  metrics_are_capped_and_monotone [halfDraws] highDraws
    (by norm_num [MetricDraws.InUnitInterval, highDraws])

end R3ASI
